import Mathlib

/-!
md3-palettes: colour schemes from tonal palettes

A shallow embedding of the Go packages `scheme` (scheme.go, tonal_palettes.go)
and `palette` (palette.go).

* Go `int` values are `Int`; the only arithmetic in the code is the right shift
  and the `uint8` truncation inside `nrgba`, neither of which can overflow.
* `color.NRGBA` is a record of four channels, each a `Nat` below 256.
* The tonal palettes come from the external module `md3-colors/palettes`.
  A `TonalPalette` is taken abstractly as what the code reads of it: its
  `Tone` function and the integer of its key colour. The constructor
  `palettes.NewTonalPaletteFromInt` is a parameter (`Lib`).
* Every method of `*Scheme` assigns fields of its receiver and returns the
  receiver. The method bodies are embedded as functions `Scheme → Scheme`
  giving the receiver's contents after the call; `Heap.call` runs such a body
  through a pointer into a heap of `Scheme` objects, which is where identity
  of instances (aliasing of `Palette.Active`) is visible.
-/

namespace MD3

/-! ## Colours and the external tonal palette -/

/-- Go `color.NRGBA`: four `uint8` channels. The zero value is `{0,0,0,0}`. -/
structure NRGBA where
  R : Nat := 0
  G : Nat := 0
  B : Nat := 0
  A : Nat := 0
deriving DecidableEq, Repr

/-- Go conversion `uint8(x)` of an `int`: the low eight bits. -/
def uint8 (x : Int) : Nat := (x % 256).toNat

/-- Embeds `func (s *Scheme) nrgba(argb int) color.NRGBA`. The method never reads
its receiver, so it is a function of `argb` alone. `>>>` on `Int` is the
arithmetic shift, as Go's `>>` on a signed `int`. -/
def nrgba (argb : Int) : NRGBA :=
  { R := uint8 (argb >>> 16)
    G := uint8 (argb >>> 8)
    B := uint8 argb
    A := uint8 (argb >>> 24) }

/-- External `hct.Hct`, of which the code only calls `ToInt()`. -/
structure Hct where
  ToInt : Int

/-- External `palettes.TonalPalette`, of which the code calls `Tone(n)` and
`GetKeyColor()`. -/
structure TonalPalette where
  Tone : Int → Int
  GetKeyColor : Hct

/-- The external package `palettes`: its constructor of tonal palettes. -/
structure Lib where
  NewTonalPaletteFromInt : Int → TonalPalette

/-! ## The scheme record -/

/-- Embeds `type Scheme struct`. The seven lower-case fields are the retained
`*palettes.TonalPalette` pointers, `none` being `nil`. -/
structure Scheme where
  Primary : NRGBA := {}
  OnPrimary : NRGBA := {}
  PrimaryContainer : NRGBA := {}
  OnPrimaryContainer : NRGBA := {}
  InversePrimary : NRGBA := {}
  Secondary : NRGBA := {}
  OnSecondary : NRGBA := {}
  SecondaryContainer : NRGBA := {}
  OnSecondaryContainer : NRGBA := {}
  Tertiary : NRGBA := {}
  OnTertiary : NRGBA := {}
  TertiaryContainer : NRGBA := {}
  OnTertiaryContainer : NRGBA := {}
  Custom : NRGBA := {}
  OnCustom : NRGBA := {}
  CustomContainer : NRGBA := {}
  OnCustomContainer : NRGBA := {}
  Error : NRGBA := {}
  OnError : NRGBA := {}
  ErrorContainer : NRGBA := {}
  OnErrorContainer : NRGBA := {}
  Surface : NRGBA := {}
  SurfaceDim : NRGBA := {}
  SurfaceBright : NRGBA := {}
  SurfaceContainerLowest : NRGBA := {}
  SurfaceContainerLow : NRGBA := {}
  SurfaceContainer : NRGBA := {}
  SurfaceContainerHigh : NRGBA := {}
  SurfaceContainerHighest : NRGBA := {}
  SurfaceVariant : NRGBA := {}
  OnSurface : NRGBA := {}
  OnSurfaceVariant : NRGBA := {}
  InverseSurface : NRGBA := {}
  InverseOnSurface : NRGBA := {}
  Background : NRGBA := {}
  OnBackground : NRGBA := {}
  Outline : NRGBA := {}
  OutlineVariant : NRGBA := {}
  Shadow : NRGBA := {}
  ShadowTint : NRGBA := {}
  Scrim : NRGBA := {}
  PrimaryTone : NRGBA := {}
  SecondaryTone : NRGBA := {}
  TertiaryTone : NRGBA := {}
  CustomTone : NRGBA := {}
  NeutralTone : NRGBA := {}
  NeutralVariantTone : NRGBA := {}
  ErrorTone : NRGBA := {}
  primaryTone : Option TonalPalette := none
  secondaryTone : Option TonalPalette := none
  tertiaryTone : Option TonalPalette := none
  customTone : Option TonalPalette := none
  neutralTone : Option TonalPalette := none
  neutralVariantTone : Option TonalPalette := none
  errorTone : Option TonalPalette := none

namespace Scheme

/-! ## Family setters (scheme.go, lines 148-300) -/

/-- Embeds `WithPrimaryTonalPalette`. -/
def WithPrimaryTonalPalette (s : Scheme) (primaryTone : TonalPalette) (isDark : Bool) : Scheme :=
  let s :=
    if isDark then
      { s with
        Primary := nrgba (primaryTone.Tone 80)
        OnPrimary := nrgba (primaryTone.Tone 20)
        PrimaryContainer := nrgba (primaryTone.Tone 30)
        OnPrimaryContainer := nrgba (primaryTone.Tone 90)
        InversePrimary := nrgba (primaryTone.Tone 40) }
    else
      { s with
        Primary := nrgba (primaryTone.Tone 40)
        OnPrimary := nrgba (primaryTone.Tone 100)
        PrimaryContainer := nrgba (primaryTone.Tone 90)
        OnPrimaryContainer := nrgba (primaryTone.Tone 10)
        InversePrimary := nrgba (primaryTone.Tone 80) }
  { s with
    ShadowTint := nrgba primaryTone.GetKeyColor.ToInt
    PrimaryTone := nrgba (primaryTone.Tone 50)
    primaryTone := some primaryTone }

/-- Embeds `WithSecondaryTonalPalette`. -/
def WithSecondaryTonalPalette (s : Scheme) (secondaryTone : TonalPalette) (isDark : Bool) : Scheme :=
  let s :=
    if isDark then
      { s with
        Secondary := nrgba (secondaryTone.Tone 80)
        OnSecondary := nrgba (secondaryTone.Tone 20)
        SecondaryContainer := nrgba (secondaryTone.Tone 30)
        OnSecondaryContainer := nrgba (secondaryTone.Tone 90) }
    else
      { s with
        Secondary := nrgba (secondaryTone.Tone 40)
        OnSecondary := nrgba (secondaryTone.Tone 100)
        SecondaryContainer := nrgba (secondaryTone.Tone 90)
        OnSecondaryContainer := nrgba (secondaryTone.Tone 10) }
  { s with
    SecondaryTone := nrgba (secondaryTone.Tone 50)
    secondaryTone := some secondaryTone }

/-- Embeds `WithTertiaryTonalPalette`. -/
def WithTertiaryTonalPalette (s : Scheme) (tertiaryTone : TonalPalette) (isDark : Bool) : Scheme :=
  let s :=
    if isDark then
      { s with
        Tertiary := nrgba (tertiaryTone.Tone 80)
        OnTertiary := nrgba (tertiaryTone.Tone 20)
        TertiaryContainer := nrgba (tertiaryTone.Tone 30)
        OnTertiaryContainer := nrgba (tertiaryTone.Tone 90) }
    else
      { s with
        Tertiary := nrgba (tertiaryTone.Tone 40)
        OnTertiary := nrgba (tertiaryTone.Tone 100)
        TertiaryContainer := nrgba (tertiaryTone.Tone 90)
        OnTertiaryContainer := nrgba (tertiaryTone.Tone 10) }
  { s with
    TertiaryTone := nrgba (tertiaryTone.Tone 50)
    tertiaryTone := some tertiaryTone }

/-- Embeds `WithCustomTonalPalette`; `customTone = none` is the `nil` pointer,
on which the method returns before any assignment. -/
def WithCustomTonalPalette (s : Scheme) (customTone : Option TonalPalette) (isDark : Bool) : Scheme :=
  match customTone with
  | none => s
  | some customTone =>
    let s :=
      if isDark then
        { s with
          Custom := nrgba (customTone.Tone 80)
          OnCustom := nrgba (customTone.Tone 20)
          CustomContainer := nrgba (customTone.Tone 30)
          OnCustomContainer := nrgba (customTone.Tone 90) }
      else
        { s with
          Custom := nrgba (customTone.Tone 40)
          OnCustom := nrgba (customTone.Tone 100)
          CustomContainer := nrgba (customTone.Tone 90)
          OnCustomContainer := nrgba (customTone.Tone 10) }
    { s with
      CustomTone := nrgba (customTone.Tone 50)
      customTone := some customTone }

/-- Embeds `WithNeutralTonalPalette`. -/
def WithNeutralTonalPalette (s : Scheme) (neutralTone : TonalPalette) (isDark : Bool) : Scheme :=
  let s :=
    if isDark then
      { s with
        Surface := nrgba (neutralTone.Tone 6)
        SurfaceDim := nrgba (neutralTone.Tone 6)
        SurfaceBright := nrgba (neutralTone.Tone 24)
        SurfaceContainerLowest := nrgba (neutralTone.Tone 4)
        SurfaceContainerLow := nrgba (neutralTone.Tone 10)
        SurfaceContainer := nrgba (neutralTone.Tone 12)
        SurfaceContainerHigh := nrgba (neutralTone.Tone 17)
        SurfaceContainerHighest := nrgba (neutralTone.Tone 22)
        OnSurface := nrgba (neutralTone.Tone 90)
        InverseSurface := nrgba (neutralTone.Tone 90)
        InverseOnSurface := nrgba (neutralTone.Tone 20)
        Background := nrgba (neutralTone.Tone 6)
        OnBackground := nrgba (neutralTone.Tone 90)
        Shadow := nrgba (neutralTone.Tone 0)
        Scrim := nrgba (neutralTone.Tone 0) }
    else
      { s with
        Surface := nrgba (neutralTone.Tone 98)
        SurfaceDim := nrgba (neutralTone.Tone 87)
        SurfaceBright := nrgba (neutralTone.Tone 98)
        SurfaceContainerLowest := nrgba (neutralTone.Tone 100)
        SurfaceContainerLow := nrgba (neutralTone.Tone 96)
        SurfaceContainer := nrgba (neutralTone.Tone 94)
        SurfaceContainerHigh := nrgba (neutralTone.Tone 92)
        SurfaceContainerHighest := nrgba (neutralTone.Tone 90)
        OnSurface := nrgba (neutralTone.Tone 0)
        InverseSurface := nrgba (neutralTone.Tone 20)
        InverseOnSurface := nrgba (neutralTone.Tone 95)
        Background := nrgba (neutralTone.Tone 98)
        OnBackground := nrgba (neutralTone.Tone 0)
        Shadow := nrgba (neutralTone.Tone 0)
        Scrim := nrgba (neutralTone.Tone 0) }
  { s with
    NeutralTone := nrgba (neutralTone.Tone 50)
    neutralTone := some neutralTone }

/-- Embeds `WithNeutralVariantTonalPalette`. -/
def WithNeutralVariantTonalPalette (s : Scheme) (neutralVariantTone : TonalPalette)
    (isDark : Bool) : Scheme :=
  let s :=
    if isDark then
      { s with
        SurfaceVariant := nrgba (neutralVariantTone.Tone 30)
        OnSurfaceVariant := nrgba (neutralVariantTone.Tone 80)
        Outline := nrgba (neutralVariantTone.Tone 60)
        OutlineVariant := nrgba (neutralVariantTone.Tone 30) }
    else
      { s with
        SurfaceVariant := nrgba (neutralVariantTone.Tone 90)
        OnSurfaceVariant := nrgba (neutralVariantTone.Tone 30)
        Outline := nrgba (neutralVariantTone.Tone 50)
        OutlineVariant := nrgba (neutralVariantTone.Tone 80) }
  { s with
    NeutralVariantTone := nrgba (neutralVariantTone.Tone 50)
    neutralVariantTone := some neutralVariantTone }

/-- Embeds `WithErrorTonalPalette`. -/
def WithErrorTonalPalette (s : Scheme) (errorTone : TonalPalette) (isDark : Bool) : Scheme :=
  let s :=
    if isDark then
      { s with
        Error := nrgba (errorTone.Tone 80)
        OnError := nrgba (errorTone.Tone 20)
        ErrorContainer := nrgba (errorTone.Tone 30)
        OnErrorContainer := nrgba (errorTone.Tone 90) }
    else
      { s with
        Error := nrgba (errorTone.Tone 40)
        OnError := nrgba (errorTone.Tone 100)
        ErrorContainer := nrgba (errorTone.Tone 90)
        OnErrorContainer := nrgba (errorTone.Tone 10) }
  { s with
    ErrorTone := nrgba (errorTone.Tone 50)
    errorTone := some errorTone }

/-! ## Single-colour overrides (scheme.go, lines 302-522) -/

/-- Embeds `WithPrimary`. -/
def WithPrimary (s : Scheme) (primary : Int) : Scheme :=
  { s with Primary := nrgba primary }

/-- Embeds `WithOnPrimary`. -/
def WithOnPrimary (s : Scheme) (onPrimary : Int) : Scheme :=
  { s with OnPrimary := nrgba onPrimary }

/-- Embeds `WithPrimaryContainer`. -/
def WithPrimaryContainer (s : Scheme) (primaryContainer : Int) : Scheme :=
  { s with PrimaryContainer := nrgba primaryContainer }

/-- Embeds `WithOnPrimaryContainer`. -/
def WithOnPrimaryContainer (s : Scheme) (onPrimaryContainer : Int) : Scheme :=
  { s with OnPrimaryContainer := nrgba onPrimaryContainer }

/-- Embeds `WithInversePrimary`. -/
def WithInversePrimary (s : Scheme) (inversePrimary : Int) : Scheme :=
  { s with InversePrimary := nrgba inversePrimary }

/-- Embeds `WithSecondary`. -/
def WithSecondary (s : Scheme) (secondary : Int) : Scheme :=
  { s with Secondary := nrgba secondary }

/-- Embeds `WithOnSecondary`. -/
def WithOnSecondary (s : Scheme) (onSecondary : Int) : Scheme :=
  { s with OnSecondary := nrgba onSecondary }

/-- Embeds `WithSecondaryContainer`. -/
def WithSecondaryContainer (s : Scheme) (secondaryContainer : Int) : Scheme :=
  { s with SecondaryContainer := nrgba secondaryContainer }

/-- Embeds `WithOnSecondaryContainer`. -/
def WithOnSecondaryContainer (s : Scheme) (onSecondaryContainer : Int) : Scheme :=
  { s with OnSecondaryContainer := nrgba onSecondaryContainer }

/-- Embeds `WithTertiary`. -/
def WithTertiary (s : Scheme) (tertiary : Int) : Scheme :=
  { s with Tertiary := nrgba tertiary }

/-- Embeds `WithOnTertiary`. -/
def WithOnTertiary (s : Scheme) (onTertiary : Int) : Scheme :=
  { s with OnTertiary := nrgba onTertiary }

/-- Embeds `WithTertiaryContainer`. -/
def WithTertiaryContainer (s : Scheme) (tertiaryContainer : Int) : Scheme :=
  { s with TertiaryContainer := nrgba tertiaryContainer }

/-- Embeds `WithOnTertiaryContainer`. -/
def WithOnTertiaryContainer (s : Scheme) (onTertiaryContainer : Int) : Scheme :=
  { s with OnTertiaryContainer := nrgba onTertiaryContainer }

/-- Embeds `WithError`. -/
def WithError (s : Scheme) (err : Int) : Scheme :=
  { s with Error := nrgba err }

/-- Embeds `WithOnError`. -/
def WithOnError (s : Scheme) (onError : Int) : Scheme :=
  { s with OnError := nrgba onError }

/-- Embeds `WithErrorContainer`. -/
def WithErrorContainer (s : Scheme) (errorContainer : Int) : Scheme :=
  { s with ErrorContainer := nrgba errorContainer }

/-- Embeds `WithOnErrorContainer`. -/
def WithOnErrorContainer (s : Scheme) (onErrorContainer : Int) : Scheme :=
  { s with OnErrorContainer := nrgba onErrorContainer }

/-- Embeds `WithSurface`. -/
def WithSurface (s : Scheme) (surface : Int) : Scheme :=
  { s with Surface := nrgba surface }

/-- Embeds `WithSurfaceDim`. -/
def WithSurfaceDim (s : Scheme) (surfaceDim : Int) : Scheme :=
  { s with SurfaceDim := nrgba surfaceDim }

/-- Embeds `WithSurfaceBright`. -/
def WithSurfaceBright (s : Scheme) (surfaceBright : Int) : Scheme :=
  { s with SurfaceBright := nrgba surfaceBright }

/-- Embeds `WithSurfaceContainerLowest`. -/
def WithSurfaceContainerLowest (s : Scheme) (surfaceContainerLowest : Int) : Scheme :=
  { s with SurfaceContainerLowest := nrgba surfaceContainerLowest }

/-- Embeds `WithSurfaceContainerLow`. -/
def WithSurfaceContainerLow (s : Scheme) (surfaceContainerLow : Int) : Scheme :=
  { s with SurfaceContainerLow := nrgba surfaceContainerLow }

/-- Embeds `WithSurfaceContainer`. -/
def WithSurfaceContainer (s : Scheme) (surfaceContainer : Int) : Scheme :=
  { s with SurfaceContainer := nrgba surfaceContainer }

/-- Embeds `WithSurfaceContainerHigh`. -/
def WithSurfaceContainerHigh (s : Scheme) (surfaceContainerHigh : Int) : Scheme :=
  { s with SurfaceContainerHigh := nrgba surfaceContainerHigh }

/-- Embeds `WithSurfaceContainerHighest`. -/
def WithSurfaceContainerHighest (s : Scheme) (surfaceContainerHighest : Int) : Scheme :=
  { s with SurfaceContainerHighest := nrgba surfaceContainerHighest }

/-- Embeds `WithSurfaceVariant`. -/
def WithSurfaceVariant (s : Scheme) (surfaceVariant : Int) : Scheme :=
  { s with SurfaceVariant := nrgba surfaceVariant }

/-- Embeds `WithOnSurface`. -/
def WithOnSurface (s : Scheme) (onSurface : Int) : Scheme :=
  { s with OnSurface := nrgba onSurface }

/-- Embeds `WithOnSurfaceVariant`. -/
def WithOnSurfaceVariant (s : Scheme) (onSurfaceVariant : Int) : Scheme :=
  { s with OnSurfaceVariant := nrgba onSurfaceVariant }

/-- Embeds `WithInverseSurface`. -/
def WithInverseSurface (s : Scheme) (inverseSurface : Int) : Scheme :=
  { s with InverseSurface := nrgba inverseSurface }

/-- Embeds `WithInverseOnSurface`. -/
def WithInverseOnSurface (s : Scheme) (inverseOnSurface : Int) : Scheme :=
  { s with InverseOnSurface := nrgba inverseOnSurface }

/-- Embeds `WithBackground`. -/
def WithBackground (s : Scheme) (background : Int) : Scheme :=
  { s with Background := nrgba background }

/-- Embeds `WithOnBackground`. -/
def WithOnBackground (s : Scheme) (onBackground : Int) : Scheme :=
  { s with OnBackground := nrgba onBackground }

/-- Embeds `WithOutline`. -/
def WithOutline (s : Scheme) (outline : Int) : Scheme :=
  { s with Outline := nrgba outline }

/-- Embeds `WithOutlineVariant`. -/
def WithOutlineVariant (s : Scheme) (outlineVariant : Int) : Scheme :=
  { s with OutlineVariant := nrgba outlineVariant }

/-- Embeds `WithShadow`. -/
def WithShadow (s : Scheme) (shadow : Int) : Scheme :=
  { s with Shadow := nrgba shadow }

/-- Embeds `WithShadowTint`. -/
def WithShadowTint (s : Scheme) (shadowTint : Int) : Scheme :=
  { s with ShadowTint := nrgba shadowTint }

/-- Embeds `WithScrim`. -/
def WithScrim (s : Scheme) (scrim : Int) : Scheme :=
  { s with Scrim := nrgba scrim }

end Scheme

/-! ## Names of the fields and of the override operations -/

/-- The 48 colour fields of `Scheme`, in declaration order. -/
inductive ColorField where
  | Primary | OnPrimary | PrimaryContainer | OnPrimaryContainer | InversePrimary | Secondary
  | OnSecondary | SecondaryContainer | OnSecondaryContainer | Tertiary | OnTertiary
  | TertiaryContainer | OnTertiaryContainer | Custom | OnCustom | CustomContainer
  | OnCustomContainer | Error | OnError | ErrorContainer | OnErrorContainer | Surface
  | SurfaceDim | SurfaceBright | SurfaceContainerLowest | SurfaceContainerLow | SurfaceContainer
  | SurfaceContainerHigh | SurfaceContainerHighest | SurfaceVariant | OnSurface
  | OnSurfaceVariant | InverseSurface | InverseOnSurface | Background | OnBackground | Outline
  | OutlineVariant | Shadow | ShadowTint | Scrim | PrimaryTone | SecondaryTone | TertiaryTone
  | CustomTone | NeutralTone | NeutralVariantTone | ErrorTone
deriving DecidableEq, Repr

/-- The seven retained tonal-palette pointers of `Scheme`. -/
inductive PaletteField where
  | primaryTone | secondaryTone | tertiaryTone | customTone | neutralTone | neutralVariantTone
  | errorTone
deriving DecidableEq, Repr

/-- The 37 single-colour override methods of scheme.go, in source order. -/
inductive Override where
  | WithPrimary | WithOnPrimary | WithPrimaryContainer | WithOnPrimaryContainer
  | WithInversePrimary | WithSecondary | WithOnSecondary | WithSecondaryContainer
  | WithOnSecondaryContainer | WithTertiary | WithOnTertiary | WithTertiaryContainer
  | WithOnTertiaryContainer | WithError | WithOnError | WithErrorContainer
  | WithOnErrorContainer | WithSurface | WithSurfaceDim | WithSurfaceBright
  | WithSurfaceContainerLowest | WithSurfaceContainerLow | WithSurfaceContainer
  | WithSurfaceContainerHigh | WithSurfaceContainerHighest | WithSurfaceVariant | WithOnSurface
  | WithOnSurfaceVariant | WithInverseSurface | WithInverseOnSurface | WithBackground
  | WithOnBackground | WithOutline | WithOutlineVariant | WithShadow | WithShadowTint
  | WithScrim
deriving DecidableEq, Repr

/-- Reads a colour field by name. -/
def Scheme.color (s : Scheme) : ColorField → NRGBA
  | .Primary => s.Primary
  | .OnPrimary => s.OnPrimary
  | .PrimaryContainer => s.PrimaryContainer
  | .OnPrimaryContainer => s.OnPrimaryContainer
  | .InversePrimary => s.InversePrimary
  | .Secondary => s.Secondary
  | .OnSecondary => s.OnSecondary
  | .SecondaryContainer => s.SecondaryContainer
  | .OnSecondaryContainer => s.OnSecondaryContainer
  | .Tertiary => s.Tertiary
  | .OnTertiary => s.OnTertiary
  | .TertiaryContainer => s.TertiaryContainer
  | .OnTertiaryContainer => s.OnTertiaryContainer
  | .Custom => s.Custom
  | .OnCustom => s.OnCustom
  | .CustomContainer => s.CustomContainer
  | .OnCustomContainer => s.OnCustomContainer
  | .Error => s.Error
  | .OnError => s.OnError
  | .ErrorContainer => s.ErrorContainer
  | .OnErrorContainer => s.OnErrorContainer
  | .Surface => s.Surface
  | .SurfaceDim => s.SurfaceDim
  | .SurfaceBright => s.SurfaceBright
  | .SurfaceContainerLowest => s.SurfaceContainerLowest
  | .SurfaceContainerLow => s.SurfaceContainerLow
  | .SurfaceContainer => s.SurfaceContainer
  | .SurfaceContainerHigh => s.SurfaceContainerHigh
  | .SurfaceContainerHighest => s.SurfaceContainerHighest
  | .SurfaceVariant => s.SurfaceVariant
  | .OnSurface => s.OnSurface
  | .OnSurfaceVariant => s.OnSurfaceVariant
  | .InverseSurface => s.InverseSurface
  | .InverseOnSurface => s.InverseOnSurface
  | .Background => s.Background
  | .OnBackground => s.OnBackground
  | .Outline => s.Outline
  | .OutlineVariant => s.OutlineVariant
  | .Shadow => s.Shadow
  | .ShadowTint => s.ShadowTint
  | .Scrim => s.Scrim
  | .PrimaryTone => s.PrimaryTone
  | .SecondaryTone => s.SecondaryTone
  | .TertiaryTone => s.TertiaryTone
  | .CustomTone => s.CustomTone
  | .NeutralTone => s.NeutralTone
  | .NeutralVariantTone => s.NeutralVariantTone
  | .ErrorTone => s.ErrorTone

/-- Reads a retained palette pointer by name. -/
def Scheme.palette (s : Scheme) : PaletteField → Option TonalPalette
  | .primaryTone => s.primaryTone
  | .secondaryTone => s.secondaryTone
  | .tertiaryTone => s.tertiaryTone
  | .customTone => s.customTone
  | .neutralTone => s.neutralTone
  | .neutralVariantTone => s.neutralVariantTone
  | .errorTone => s.errorTone

/-- Runs the override method of the given name. -/
def Override.apply : Override → Scheme → Int → Scheme
  | .WithPrimary => Scheme.WithPrimary
  | .WithOnPrimary => Scheme.WithOnPrimary
  | .WithPrimaryContainer => Scheme.WithPrimaryContainer
  | .WithOnPrimaryContainer => Scheme.WithOnPrimaryContainer
  | .WithInversePrimary => Scheme.WithInversePrimary
  | .WithSecondary => Scheme.WithSecondary
  | .WithOnSecondary => Scheme.WithOnSecondary
  | .WithSecondaryContainer => Scheme.WithSecondaryContainer
  | .WithOnSecondaryContainer => Scheme.WithOnSecondaryContainer
  | .WithTertiary => Scheme.WithTertiary
  | .WithOnTertiary => Scheme.WithOnTertiary
  | .WithTertiaryContainer => Scheme.WithTertiaryContainer
  | .WithOnTertiaryContainer => Scheme.WithOnTertiaryContainer
  | .WithError => Scheme.WithError
  | .WithOnError => Scheme.WithOnError
  | .WithErrorContainer => Scheme.WithErrorContainer
  | .WithOnErrorContainer => Scheme.WithOnErrorContainer
  | .WithSurface => Scheme.WithSurface
  | .WithSurfaceDim => Scheme.WithSurfaceDim
  | .WithSurfaceBright => Scheme.WithSurfaceBright
  | .WithSurfaceContainerLowest => Scheme.WithSurfaceContainerLowest
  | .WithSurfaceContainerLow => Scheme.WithSurfaceContainerLow
  | .WithSurfaceContainer => Scheme.WithSurfaceContainer
  | .WithSurfaceContainerHigh => Scheme.WithSurfaceContainerHigh
  | .WithSurfaceContainerHighest => Scheme.WithSurfaceContainerHighest
  | .WithSurfaceVariant => Scheme.WithSurfaceVariant
  | .WithOnSurface => Scheme.WithOnSurface
  | .WithOnSurfaceVariant => Scheme.WithOnSurfaceVariant
  | .WithInverseSurface => Scheme.WithInverseSurface
  | .WithInverseOnSurface => Scheme.WithInverseOnSurface
  | .WithBackground => Scheme.WithBackground
  | .WithOnBackground => Scheme.WithOnBackground
  | .WithOutline => Scheme.WithOutline
  | .WithOutlineVariant => Scheme.WithOutlineVariant
  | .WithShadow => Scheme.WithShadow
  | .WithShadowTint => Scheme.WithShadowTint
  | .WithScrim => Scheme.WithScrim

/-- The field an override method is named after: `WithX` names `X`. -/
def Override.target : Override → ColorField
  | .WithPrimary => .Primary
  | .WithOnPrimary => .OnPrimary
  | .WithPrimaryContainer => .PrimaryContainer
  | .WithOnPrimaryContainer => .OnPrimaryContainer
  | .WithInversePrimary => .InversePrimary
  | .WithSecondary => .Secondary
  | .WithOnSecondary => .OnSecondary
  | .WithSecondaryContainer => .SecondaryContainer
  | .WithOnSecondaryContainer => .OnSecondaryContainer
  | .WithTertiary => .Tertiary
  | .WithOnTertiary => .OnTertiary
  | .WithTertiaryContainer => .TertiaryContainer
  | .WithOnTertiaryContainer => .OnTertiaryContainer
  | .WithError => .Error
  | .WithOnError => .OnError
  | .WithErrorContainer => .ErrorContainer
  | .WithOnErrorContainer => .OnErrorContainer
  | .WithSurface => .Surface
  | .WithSurfaceDim => .SurfaceDim
  | .WithSurfaceBright => .SurfaceBright
  | .WithSurfaceContainerLowest => .SurfaceContainerLowest
  | .WithSurfaceContainerLow => .SurfaceContainerLow
  | .WithSurfaceContainer => .SurfaceContainer
  | .WithSurfaceContainerHigh => .SurfaceContainerHigh
  | .WithSurfaceContainerHighest => .SurfaceContainerHighest
  | .WithSurfaceVariant => .SurfaceVariant
  | .WithOnSurface => .OnSurface
  | .WithOnSurfaceVariant => .OnSurfaceVariant
  | .WithInverseSurface => .InverseSurface
  | .WithInverseOnSurface => .InverseOnSurface
  | .WithBackground => .Background
  | .WithOnBackground => .OnBackground
  | .WithOutline => .Outline
  | .WithOutlineVariant => .OutlineVariant
  | .WithShadow => .Shadow
  | .WithShadowTint => .ShadowTint
  | .WithScrim => .Scrim

/-! ## Preset tonal palettes (tonal_palettes.go, lines 54-59) -/

/-- Embeds `var PrimaryTonalPalette`. -/
def PrimaryTonalPalette (lib : Lib) : TonalPalette := lib.NewTonalPaletteFromInt 0xFF6750A4

/-- Embeds `var SecondaryTonalPalette`. -/
def SecondaryTonalPalette (lib : Lib) : TonalPalette := lib.NewTonalPaletteFromInt 0xFF625B71

/-- Embeds `var TertiaryTonalPalette`. -/
def TertiaryTonalPalette (lib : Lib) : TonalPalette := lib.NewTonalPaletteFromInt 0xFF7D5260

/-- Embeds `var ErrorTonalPalette`. -/
def ErrorTonalPalette (lib : Lib) : TonalPalette := lib.NewTonalPaletteFromInt 0xFFB3261E

/-- Embeds `var NeutralTonalPalette`. -/
def NeutralTonalPalette (lib : Lib) : TonalPalette := lib.NewTonalPaletteFromInt 0xFF787579

/-- Embeds `var NeutralVariantTonalPalette`. -/
def NeutralVariantTonalPalette (lib : Lib) : TonalPalette := lib.NewTonalPaletteFromInt 0xFF79747E

/-! ## Scheme objects behind pointers -/

/-- A Go pointer `*Scheme`: an address, `0` being `nil`. -/
abbrev Ptr := Nat

/-- The allocated `Scheme` objects: addresses `1 .. size` are live and `obj`
gives their contents. -/
structure Heap where
  size : Nat
  obj : Ptr → Scheme

namespace Heap

/-- The heap before any allocation. -/
def empty : Heap := { size := 0, obj := fun _ => {} }

/-- Whether `p` points to an allocated object (in particular `p` is not `nil`). -/
def live (h : Heap) (p : Ptr) : Bool := decide (0 < p) && decide (p ≤ h.size)

/-- Go `&Scheme{...}`: a fresh object with the given contents and its address. -/
def alloc (h : Heap) (v : Scheme) : Heap × Ptr :=
  ({ size := h.size + 1, obj := Function.update h.obj (h.size + 1) v }, h.size + 1)

/-- A method call `s.M(args)` on a `*Scheme`: the body assigns fields of `*s` and
the method returns `s`. Dereferencing a pointer that is not live panics (`none`). -/
def call (h : Heap) (s : Ptr) (body : Scheme → Scheme) : Option (Heap × Ptr) :=
  if h.live s then
    some ({ h with obj := Function.update h.obj s (body (h.obj s)) }, s)
  else
    none

end Heap

/-! ## Scheme constructors (scheme.go, lines 114-146) -/

/-- Embeds `lightFromTonalPalette`. -/
def lightFromTonalPalette (lib : Lib) (h : Heap)
    (primary secondary tertiary neutral neutralVariant : TonalPalette) : Option (Heap × Ptr) := do
  let (h, s) := h.alloc {}
  let (h, s) ← h.call s (fun v => v.WithPrimaryTonalPalette primary false)
  let (h, s) ← h.call s (fun v => v.WithSecondaryTonalPalette secondary false)
  let (h, s) ← h.call s (fun v => v.WithTertiaryTonalPalette tertiary false)
  let (h, s) ← h.call s (fun v => v.WithNeutralTonalPalette neutral false)
  let (h, s) ← h.call s (fun v => v.WithNeutralVariantTonalPalette neutralVariant false)
  let (h, s) ← h.call s (fun v => v.WithErrorTonalPalette (ErrorTonalPalette lib) false)
  return (h, s)

/-- Embeds `darkFromTonalPalette`. -/
def darkFromTonalPalette (lib : Lib) (h : Heap)
    (primary secondary tertiary neutral neutralVariant : TonalPalette) : Option (Heap × Ptr) := do
  let (h, s) := h.alloc {}
  let (h, s) ← h.call s (fun v => v.WithPrimaryTonalPalette primary true)
  let (h, s) ← h.call s (fun v => v.WithSecondaryTonalPalette secondary true)
  let (h, s) ← h.call s (fun v => v.WithTertiaryTonalPalette tertiary true)
  let (h, s) ← h.call s (fun v => v.WithNeutralTonalPalette neutral true)
  let (h, s) ← h.call s (fun v => v.WithNeutralVariantTonalPalette neutralVariant true)
  let (h, s) ← h.call s (fun v => v.WithErrorTonalPalette (ErrorTonalPalette lib) true)
  return (h, s)

/-- Embeds `Light`. -/
def Light (lib : Lib) (h : Heap) (primary secondary tertiary neutral neutralVariant : Int) :
    Option (Heap × Ptr) :=
  lightFromTonalPalette lib h (lib.NewTonalPaletteFromInt primary)
    (lib.NewTonalPaletteFromInt secondary) (lib.NewTonalPaletteFromInt tertiary)
    (lib.NewTonalPaletteFromInt neutral) (lib.NewTonalPaletteFromInt neutralVariant)

/-- Embeds `Dark`. -/
def Dark (lib : Lib) (h : Heap) (primary secondary tertiary neutral neutralVariant : Int) :
    Option (Heap × Ptr) :=
  darkFromTonalPalette lib h (lib.NewTonalPaletteFromInt primary)
    (lib.NewTonalPaletteFromInt secondary) (lib.NewTonalPaletteFromInt tertiary)
    (lib.NewTonalPaletteFromInt neutral) (lib.NewTonalPaletteFromInt neutralVariant)

/-! ## The palette container (palette.go) -/

/-- Embeds `type Palette struct`: three `*Scheme` pointers and the mode flag. -/
structure Palette where
  Light : Ptr
  Dark : Ptr
  Active : Ptr
  IsDark : Bool
deriving DecidableEq, Repr

/-- Embeds `NewPaletteFromInt`. -/
def NewPaletteFromInt (lib : Lib) (h : Heap)
    (primary secondary tertiary neutral neutralVariant : Int) : Option (Heap × Palette) := do
  let (h, l) ← Light lib h primary secondary tertiary neutral neutralVariant
  let (h, light) ← h.call l (fun v => v.WithErrorTonalPalette (ErrorTonalPalette lib) false)
  let (h, d) ← Dark lib h primary secondary tertiary neutral neutralVariant
  let (h, dark) ← h.call d (fun v => v.WithErrorTonalPalette (ErrorTonalPalette lib) true)
  let active := light
  let isDark := false
  return (h, { Light := light, Dark := dark, Active := active, IsDark := isDark })

/-- Embeds `NewDefaultPalette`. -/
def NewDefaultPalette (lib : Lib) (h : Heap) : Option (Heap × Palette) := do
  let (h, l) ← Light lib h ((PrimaryTonalPalette lib).Tone 50) ((SecondaryTonalPalette lib).Tone 50)
    ((TertiaryTonalPalette lib).Tone 50) ((NeutralTonalPalette lib).Tone 50)
    ((NeutralVariantTonalPalette lib).Tone 50)
  let (h, light) ← h.call l (fun v => v.WithErrorTonalPalette (ErrorTonalPalette lib) false)
  let (h, d) ← Dark lib h ((PrimaryTonalPalette lib).Tone 50) ((SecondaryTonalPalette lib).Tone 50)
    ((TertiaryTonalPalette lib).Tone 50) ((NeutralTonalPalette lib).Tone 50)
    ((NeutralVariantTonalPalette lib).Tone 50)
  let (h, dark) ← h.call d (fun v => v.WithErrorTonalPalette (ErrorTonalPalette lib) true)
  let active := light
  let isDark := false
  return (h, { Light := light, Dark := dark, Active := active, IsDark := isDark })

/-- Embeds `SwitchMode`: the receiver after the call. -/
def Palette.SwitchMode (p : Palette) (isDark : Bool) : Palette :=
  let p := if isDark then { p with Active := p.Dark } else { p with Active := p.Light }
  { p with IsDark := isDark }


/-! ## The seven role families -/

/-- The role families, one per `With...TonalPalette` setter of scheme.go. -/
inductive Family where
  | primary | secondary | tertiary | custom | neutral | neutralVariant | error
deriving DecidableEq, Repr

/-- Runs the family's setter with a (non-nil) palette. -/
def Family.apply : Family → Scheme → TonalPalette → Bool → Scheme
  | .primary, s, p, isDark => s.WithPrimaryTonalPalette p isDark
  | .secondary, s, p, isDark => s.WithSecondaryTonalPalette p isDark
  | .tertiary, s, p, isDark => s.WithTertiaryTonalPalette p isDark
  | .custom, s, p, isDark => s.WithCustomTonalPalette (some p) isDark
  | .neutral, s, p, isDark => s.WithNeutralTonalPalette p isDark
  | .neutralVariant, s, p, isDark => s.WithNeutralVariantTonalPalette p isDark
  | .error, s, p, isDark => s.WithErrorTonalPalette p isDark

/-- The colour fields of a family: its row of the tone table and its mid-tone
field, and for the primary family also ShadowTint. -/
def Family.fields : Family → List ColorField
  | .primary => [.Primary, .OnPrimary, .PrimaryContainer, .OnPrimaryContainer, .InversePrimary,
      .PrimaryTone, .ShadowTint]
  | .secondary => [.Secondary, .OnSecondary, .SecondaryContainer, .OnSecondaryContainer,
      .SecondaryTone]
  | .tertiary => [.Tertiary, .OnTertiary, .TertiaryContainer, .OnTertiaryContainer,
      .TertiaryTone]
  | .custom => [.Custom, .OnCustom, .CustomContainer, .OnCustomContainer, .CustomTone]
  | .neutral => [.Surface, .SurfaceDim, .SurfaceBright, .SurfaceContainerLowest,
      .SurfaceContainerLow, .SurfaceContainer, .SurfaceContainerHigh, .SurfaceContainerHighest,
      .OnSurface, .InverseSurface, .InverseOnSurface, .Background, .OnBackground, .Shadow,
      .Scrim, .NeutralTone]
  | .neutralVariant => [.SurfaceVariant, .OnSurfaceVariant, .Outline, .OutlineVariant,
      .NeutralVariantTone]
  | .error => [.Error, .OnError, .ErrorContainer, .OnErrorContainer, .ErrorTone]

/-- The retained palette pointer of a family. -/
def Family.ref : Family → PaletteField
  | .primary => .primaryTone
  | .secondary => .secondaryTone
  | .tertiary => .tertiaryTone
  | .custom => .customTone
  | .neutral => .neutralTone
  | .neutralVariant => .neutralVariantTone
  | .error => .errorTone

/-! ## A provider stub -/

/-- A stand-in for the external library in examples: every palette returns the
opaque colour `0xFF000000 + seed mod 2^24` at every tone and as its key colour. -/
def opaqueStub : Lib :=
  { NewTonalPaletteFromInt := fun seed =>
      { Tone := fun _ => 0xFF000000 + seed % 0x1000000
        GetKeyColor := { ToInt := 0xFF000000 + seed % 0x1000000 } } }

/-- A palette stub with a distinguishable opaque colour per tone: tone `n` is
`0xFF000000 + n`, so that for `0 ≤ n ≤ 255` the blue channel reads `n`. -/
def markerPalette : TonalPalette :=
  { Tone := fun n => 0xFF000000 + n
    GetKeyColor := { ToInt := 0xFF000000 } }

/-! ## Heap lemmas -/

namespace Heap

theorem call_of_live (h : Heap) (s : Ptr) (body : Scheme → Scheme) (hs : h.live s = true) :
    h.call s body = some ({ h with obj := Function.update h.obj s (body (h.obj s)) }, s) := by
  simp [call, hs]

theorem live_alloc (h : Heap) (v : Scheme) : (h.alloc v).1.live (h.alloc v).2 = true := by
  simp [live, alloc]

theorem call_alloc (h : Heap) (v : Scheme) (body : Scheme → Scheme) :
    (h.alloc v).1.call (h.alloc v).2 body = some (h.alloc (body v)) := by
  rw [call_of_live _ _ _ (live_alloc h v)]
  simp [alloc]

end Heap

theorem lightFromTonalPalette_eq (lib : Lib) (h : Heap)
    (primary secondary tertiary neutral neutralVariant : TonalPalette) :
    lightFromTonalPalette lib h primary secondary tertiary neutral neutralVariant =
      some (h.alloc (({} : Scheme)
        |>.WithPrimaryTonalPalette primary false
        |>.WithSecondaryTonalPalette secondary false
        |>.WithTertiaryTonalPalette tertiary false
        |>.WithNeutralTonalPalette neutral false
        |>.WithNeutralVariantTonalPalette neutralVariant false
        |>.WithErrorTonalPalette (ErrorTonalPalette lib) false)) := by
  unfold lightFromTonalPalette
  simp only [Heap.call_alloc, Option.bind_eq_bind, Option.some_bind, bind_pure_comp, Option.map_some', Option.pure_def]

theorem darkFromTonalPalette_eq (lib : Lib) (h : Heap)
    (primary secondary tertiary neutral neutralVariant : TonalPalette) :
    darkFromTonalPalette lib h primary secondary tertiary neutral neutralVariant =
      some (h.alloc (({} : Scheme)
        |>.WithPrimaryTonalPalette primary true
        |>.WithSecondaryTonalPalette secondary true
        |>.WithTertiaryTonalPalette tertiary true
        |>.WithNeutralTonalPalette neutral true
        |>.WithNeutralVariantTonalPalette neutralVariant true
        |>.WithErrorTonalPalette (ErrorTonalPalette lib) true)) := by
  unfold darkFromTonalPalette
  simp only [Heap.call_alloc, Option.bind_eq_bind, Option.some_bind, bind_pure_comp, Option.map_some', Option.pure_def]

/-! ## The tone table of the family setters -/

/-- C1: for every scheme and tonal palette, the primary setter in light mode
assigns Primary, OnPrimary, PrimaryContainer, OnPrimaryContainer, InversePrimary
the unpacked tones 40, 100, 90, 10, 80, and in dark mode the unpacked tones
80, 20, 30, 90, 40. -/
theorem withPrimaryTonalPalette_tones (s : Scheme) (p : TonalPalette) :
    ((s.WithPrimaryTonalPalette p false).Primary = nrgba (p.Tone 40) ∧
      (s.WithPrimaryTonalPalette p false).OnPrimary = nrgba (p.Tone 100) ∧
      (s.WithPrimaryTonalPalette p false).PrimaryContainer = nrgba (p.Tone 90) ∧
      (s.WithPrimaryTonalPalette p false).OnPrimaryContainer = nrgba (p.Tone 10) ∧
      (s.WithPrimaryTonalPalette p false).InversePrimary = nrgba (p.Tone 80)) ∧
    ((s.WithPrimaryTonalPalette p true).Primary = nrgba (p.Tone 80) ∧
      (s.WithPrimaryTonalPalette p true).OnPrimary = nrgba (p.Tone 20) ∧
      (s.WithPrimaryTonalPalette p true).PrimaryContainer = nrgba (p.Tone 30) ∧
      (s.WithPrimaryTonalPalette p true).OnPrimaryContainer = nrgba (p.Tone 90) ∧
      (s.WithPrimaryTonalPalette p true).InversePrimary = nrgba (p.Tone 40)) :=
  ⟨⟨rfl, rfl, rfl, rfl, rfl⟩, ⟨rfl, rfl, rfl, rfl, rfl⟩⟩

/-- C3: the secondary, tertiary and error setters assign their family's base,
on, container and on-container fields the unpacked tones 40, 100, 90, 10 in
light mode and 80, 20, 30, 90 in dark mode. -/
theorem secondary_tertiary_error_tones (s : Scheme) (p : TonalPalette) :
    ((s.WithSecondaryTonalPalette p false).Secondary = nrgba (p.Tone 40) ∧
      (s.WithSecondaryTonalPalette p false).OnSecondary = nrgba (p.Tone 100) ∧
      (s.WithSecondaryTonalPalette p false).SecondaryContainer = nrgba (p.Tone 90) ∧
      (s.WithSecondaryTonalPalette p false).OnSecondaryContainer = nrgba (p.Tone 10) ∧
      (s.WithSecondaryTonalPalette p true).Secondary = nrgba (p.Tone 80) ∧
      (s.WithSecondaryTonalPalette p true).OnSecondary = nrgba (p.Tone 20) ∧
      (s.WithSecondaryTonalPalette p true).SecondaryContainer = nrgba (p.Tone 30) ∧
      (s.WithSecondaryTonalPalette p true).OnSecondaryContainer = nrgba (p.Tone 90)) ∧
    ((s.WithTertiaryTonalPalette p false).Tertiary = nrgba (p.Tone 40) ∧
      (s.WithTertiaryTonalPalette p false).OnTertiary = nrgba (p.Tone 100) ∧
      (s.WithTertiaryTonalPalette p false).TertiaryContainer = nrgba (p.Tone 90) ∧
      (s.WithTertiaryTonalPalette p false).OnTertiaryContainer = nrgba (p.Tone 10) ∧
      (s.WithTertiaryTonalPalette p true).Tertiary = nrgba (p.Tone 80) ∧
      (s.WithTertiaryTonalPalette p true).OnTertiary = nrgba (p.Tone 20) ∧
      (s.WithTertiaryTonalPalette p true).TertiaryContainer = nrgba (p.Tone 30) ∧
      (s.WithTertiaryTonalPalette p true).OnTertiaryContainer = nrgba (p.Tone 90)) ∧
    ((s.WithErrorTonalPalette p false).Error = nrgba (p.Tone 40) ∧
      (s.WithErrorTonalPalette p false).OnError = nrgba (p.Tone 100) ∧
      (s.WithErrorTonalPalette p false).ErrorContainer = nrgba (p.Tone 90) ∧
      (s.WithErrorTonalPalette p false).OnErrorContainer = nrgba (p.Tone 10) ∧
      (s.WithErrorTonalPalette p true).Error = nrgba (p.Tone 80) ∧
      (s.WithErrorTonalPalette p true).OnError = nrgba (p.Tone 20) ∧
      (s.WithErrorTonalPalette p true).ErrorContainer = nrgba (p.Tone 30) ∧
      (s.WithErrorTonalPalette p true).OnErrorContainer = nrgba (p.Tone 90)) :=
  ⟨⟨rfl, rfl, rfl, rfl, rfl, rfl, rfl, rfl⟩, ⟨rfl, rfl, rfl, rfl, rfl, rfl, rfl, rfl⟩,
    ⟨rfl, rfl, rfl, rfl, rfl, rfl, rfl, rfl⟩⟩

/-- C4: the neutral setter assigns Surface, SurfaceDim, SurfaceBright, the five
surface containers (lowest to highest), OnSurface, InverseSurface,
InverseOnSurface, Background, OnBackground, Shadow, Scrim the unpacked tones
98, 87, 98, 100, 96, 94, 92, 90, 0, 20, 95, 98, 0, 0, 0 in light mode and
6, 6, 24, 4, 10, 12, 17, 22, 90, 90, 20, 6, 90, 0, 0 in dark mode. -/
theorem withNeutralTonalPalette_tones (s : Scheme) (p : TonalPalette) :
    ((s.WithNeutralTonalPalette p false).Surface = nrgba (p.Tone 98) ∧
      (s.WithNeutralTonalPalette p false).SurfaceDim = nrgba (p.Tone 87) ∧
      (s.WithNeutralTonalPalette p false).SurfaceBright = nrgba (p.Tone 98) ∧
      (s.WithNeutralTonalPalette p false).SurfaceContainerLowest = nrgba (p.Tone 100) ∧
      (s.WithNeutralTonalPalette p false).SurfaceContainerLow = nrgba (p.Tone 96) ∧
      (s.WithNeutralTonalPalette p false).SurfaceContainer = nrgba (p.Tone 94) ∧
      (s.WithNeutralTonalPalette p false).SurfaceContainerHigh = nrgba (p.Tone 92) ∧
      (s.WithNeutralTonalPalette p false).SurfaceContainerHighest = nrgba (p.Tone 90) ∧
      (s.WithNeutralTonalPalette p false).OnSurface = nrgba (p.Tone 0) ∧
      (s.WithNeutralTonalPalette p false).InverseSurface = nrgba (p.Tone 20) ∧
      (s.WithNeutralTonalPalette p false).InverseOnSurface = nrgba (p.Tone 95) ∧
      (s.WithNeutralTonalPalette p false).Background = nrgba (p.Tone 98) ∧
      (s.WithNeutralTonalPalette p false).OnBackground = nrgba (p.Tone 0) ∧
      (s.WithNeutralTonalPalette p false).Shadow = nrgba (p.Tone 0) ∧
      (s.WithNeutralTonalPalette p false).Scrim = nrgba (p.Tone 0)) ∧
    ((s.WithNeutralTonalPalette p true).Surface = nrgba (p.Tone 6) ∧
      (s.WithNeutralTonalPalette p true).SurfaceDim = nrgba (p.Tone 6) ∧
      (s.WithNeutralTonalPalette p true).SurfaceBright = nrgba (p.Tone 24) ∧
      (s.WithNeutralTonalPalette p true).SurfaceContainerLowest = nrgba (p.Tone 4) ∧
      (s.WithNeutralTonalPalette p true).SurfaceContainerLow = nrgba (p.Tone 10) ∧
      (s.WithNeutralTonalPalette p true).SurfaceContainer = nrgba (p.Tone 12) ∧
      (s.WithNeutralTonalPalette p true).SurfaceContainerHigh = nrgba (p.Tone 17) ∧
      (s.WithNeutralTonalPalette p true).SurfaceContainerHighest = nrgba (p.Tone 22) ∧
      (s.WithNeutralTonalPalette p true).OnSurface = nrgba (p.Tone 90) ∧
      (s.WithNeutralTonalPalette p true).InverseSurface = nrgba (p.Tone 90) ∧
      (s.WithNeutralTonalPalette p true).InverseOnSurface = nrgba (p.Tone 20) ∧
      (s.WithNeutralTonalPalette p true).Background = nrgba (p.Tone 6) ∧
      (s.WithNeutralTonalPalette p true).OnBackground = nrgba (p.Tone 90) ∧
      (s.WithNeutralTonalPalette p true).Shadow = nrgba (p.Tone 0) ∧
      (s.WithNeutralTonalPalette p true).Scrim = nrgba (p.Tone 0)) :=
  ⟨⟨rfl, rfl, rfl, rfl, rfl, rfl, rfl, rfl, rfl, rfl, rfl, rfl, rfl, rfl, rfl⟩,
    ⟨rfl, rfl, rfl, rfl, rfl, rfl, rfl, rfl, rfl, rfl, rfl, rfl, rfl, rfl, rfl⟩⟩

/-- C5: the neutral-variant setter assigns SurfaceVariant, OnSurfaceVariant,
Outline, OutlineVariant the unpacked tones 90, 30, 50, 80 in light mode and
30, 80, 60, 30 in dark mode. -/
theorem withNeutralVariantTonalPalette_tones (s : Scheme) (p : TonalPalette) :
    ((s.WithNeutralVariantTonalPalette p false).SurfaceVariant = nrgba (p.Tone 90) ∧
      (s.WithNeutralVariantTonalPalette p false).OnSurfaceVariant = nrgba (p.Tone 30) ∧
      (s.WithNeutralVariantTonalPalette p false).Outline = nrgba (p.Tone 50) ∧
      (s.WithNeutralVariantTonalPalette p false).OutlineVariant = nrgba (p.Tone 80)) ∧
    ((s.WithNeutralVariantTonalPalette p true).SurfaceVariant = nrgba (p.Tone 30) ∧
      (s.WithNeutralVariantTonalPalette p true).OnSurfaceVariant = nrgba (p.Tone 80) ∧
      (s.WithNeutralVariantTonalPalette p true).Outline = nrgba (p.Tone 60) ∧
      (s.WithNeutralVariantTonalPalette p true).OutlineVariant = nrgba (p.Tone 30)) :=
  ⟨⟨rfl, rfl, rfl, rfl⟩, ⟨rfl, rfl, rfl, rfl⟩⟩

/-- C6: with a non-nil palette the custom setter assigns Custom, OnCustom,
CustomContainer, OnCustomContainer the unpacked tones 40, 100, 90, 10 in light
mode and 80, 20, 30, 90 in dark mode. -/
theorem withCustomTonalPalette_tones (s : Scheme) (p : TonalPalette) :
    ((s.WithCustomTonalPalette (some p) false).Custom = nrgba (p.Tone 40) ∧
      (s.WithCustomTonalPalette (some p) false).OnCustom = nrgba (p.Tone 100) ∧
      (s.WithCustomTonalPalette (some p) false).CustomContainer = nrgba (p.Tone 90) ∧
      (s.WithCustomTonalPalette (some p) false).OnCustomContainer = nrgba (p.Tone 10)) ∧
    ((s.WithCustomTonalPalette (some p) true).Custom = nrgba (p.Tone 80) ∧
      (s.WithCustomTonalPalette (some p) true).OnCustom = nrgba (p.Tone 20) ∧
      (s.WithCustomTonalPalette (some p) true).CustomContainer = nrgba (p.Tone 30) ∧
      (s.WithCustomTonalPalette (some p) true).OnCustomContainer = nrgba (p.Tone 90)) :=
  ⟨⟨rfl, rfl, rfl, rfl⟩, ⟨rfl, rfl, rfl, rfl⟩⟩

/-! ## Construction of a palette -/

theorem Light_eq (lib : Lib) (h : Heap) (primary secondary tertiary neutral neutralVariant : Int) :
    Light lib h primary secondary tertiary neutral neutralVariant =
      some (h.alloc (({} : Scheme)
        |>.WithPrimaryTonalPalette (lib.NewTonalPaletteFromInt primary) false
        |>.WithSecondaryTonalPalette (lib.NewTonalPaletteFromInt secondary) false
        |>.WithTertiaryTonalPalette (lib.NewTonalPaletteFromInt tertiary) false
        |>.WithNeutralTonalPalette (lib.NewTonalPaletteFromInt neutral) false
        |>.WithNeutralVariantTonalPalette (lib.NewTonalPaletteFromInt neutralVariant) false
        |>.WithErrorTonalPalette (ErrorTonalPalette lib) false)) := by
  unfold Light
  exact lightFromTonalPalette_eq lib h _ _ _ _ _

theorem Dark_eq (lib : Lib) (h : Heap) (primary secondary tertiary neutral neutralVariant : Int) :
    Dark lib h primary secondary tertiary neutral neutralVariant =
      some (h.alloc (({} : Scheme)
        |>.WithPrimaryTonalPalette (lib.NewTonalPaletteFromInt primary) true
        |>.WithSecondaryTonalPalette (lib.NewTonalPaletteFromInt secondary) true
        |>.WithTertiaryTonalPalette (lib.NewTonalPaletteFromInt tertiary) true
        |>.WithNeutralTonalPalette (lib.NewTonalPaletteFromInt neutral) true
        |>.WithNeutralVariantTonalPalette (lib.NewTonalPaletteFromInt neutralVariant) true
        |>.WithErrorTonalPalette (ErrorTonalPalette lib) true)) := by
  unfold Dark
  exact darkFromTonalPalette_eq lib h _ _ _ _ _

/-- `NewPaletteFromInt` never panics: it allocates the light scheme at address
`h.size + 1` and the dark scheme at `h.size + 2`, each holding the scheme of its
constructor with the error setter applied once more. -/
theorem NewPaletteFromInt_eq (lib : Lib) (h : Heap)
    (primary secondary tertiary neutral neutralVariant : Int) :
    NewPaletteFromInt lib h primary secondary tertiary neutral neutralVariant =
      some
        ({ size := h.size + 2
           obj := Function.update (Function.update h.obj (h.size + 1)
              (({} : Scheme)
                |>.WithPrimaryTonalPalette (lib.NewTonalPaletteFromInt primary) false
                |>.WithSecondaryTonalPalette (lib.NewTonalPaletteFromInt secondary) false
                |>.WithTertiaryTonalPalette (lib.NewTonalPaletteFromInt tertiary) false
                |>.WithNeutralTonalPalette (lib.NewTonalPaletteFromInt neutral) false
                |>.WithNeutralVariantTonalPalette (lib.NewTonalPaletteFromInt neutralVariant) false
                |>.WithErrorTonalPalette (ErrorTonalPalette lib) false
                |>.WithErrorTonalPalette (ErrorTonalPalette lib) false))
              (h.size + 2)
              (({} : Scheme)
                |>.WithPrimaryTonalPalette (lib.NewTonalPaletteFromInt primary) true
                |>.WithSecondaryTonalPalette (lib.NewTonalPaletteFromInt secondary) true
                |>.WithTertiaryTonalPalette (lib.NewTonalPaletteFromInt tertiary) true
                |>.WithNeutralTonalPalette (lib.NewTonalPaletteFromInt neutral) true
                |>.WithNeutralVariantTonalPalette (lib.NewTonalPaletteFromInt neutralVariant) true
                |>.WithErrorTonalPalette (ErrorTonalPalette lib) true
                |>.WithErrorTonalPalette (ErrorTonalPalette lib) true) },
         { Light := h.size + 1, Dark := h.size + 2, Active := h.size + 1, IsDark := false }) := by
  unfold NewPaletteFromInt
  simp only [Light_eq, Dark_eq, Heap.call_alloc, Option.bind_eq_bind, Option.some_bind,
    Option.pure_def]
  rfl

/-- C2: for all five seeds and any heap, `NewPaletteFromInt` returns a palette
whose light scheme has Primary, OnPrimary, PrimaryContainer, OnPrimaryContainer
equal to the unpacked tones 40, 100, 90, 10 of the tonal palette derived from
the primary seed: the setters applied after the primary one leave them alone. -/
theorem newPaletteFromInt_light_primary (lib : Lib) (h : Heap)
    (primary secondary tertiary neutral neutralVariant : Int) :
    ∃ h' pal, NewPaletteFromInt lib h primary secondary tertiary neutral neutralVariant
        = some (h', pal) ∧
      (h'.obj pal.Light).Primary = nrgba ((lib.NewTonalPaletteFromInt primary).Tone 40) ∧
      (h'.obj pal.Light).OnPrimary = nrgba ((lib.NewTonalPaletteFromInt primary).Tone 100) ∧
      (h'.obj pal.Light).PrimaryContainer = nrgba ((lib.NewTonalPaletteFromInt primary).Tone 90) ∧
      (h'.obj pal.Light).OnPrimaryContainer
        = nrgba ((lib.NewTonalPaletteFromInt primary).Tone 10) := by
  refine ⟨_, _, NewPaletteFromInt_eq lib h primary secondary tertiary neutral neutralVariant, ?_⟩
  have hne : h.size + 1 ≠ h.size + 2 := by omega
  simp only [Function.update_noteq hne, Function.update_same]
  exact ⟨rfl, rfl, rfl, rfl⟩

/-! ## The custom setter without a palette -/

/-- C7: with a nil palette the custom setter is a no-op in both modes. Called
on a live pointer `s` it returns `s` itself and leaves the heap, hence every
field of every scheme object, as it was; as a function on scheme contents it
is the identity. -/
theorem withCustomTonalPalette_nil_noop (h : Heap) (s : Ptr) (isDark : Bool)
    (hs : h.live s = true) :
    h.call s (fun v => v.WithCustomTonalPalette none isDark) = some (h, s) ∧
      ∀ v : Scheme, v.WithCustomTonalPalette none isDark = v := by
  refine ⟨?_, fun v => rfl⟩
  rw [Heap.call_of_live h s _ hs]
  simp [Scheme.WithCustomTonalPalette]

theorem withCustomTonalPalette_nil_noop_witness :
    (Heap.empty.alloc {}).1.live 1 = true ∧
      ((Heap.empty.alloc {}).1.call 1 (fun v => v.WithCustomTonalPalette none true)
          = some ((Heap.empty.alloc {}).1, 1) ∧
        ∀ v : Scheme, v.WithCustomTonalPalette none true = v) :=
  ⟨by decide, withCustomTonalPalette_nil_noop (Heap.empty.alloc {}).1 1 true (by decide)⟩

/-! ## Mid-tones and the shadow tint -/

/-- C8: each of the seven family setters (the custom one with a non-nil palette)
assigns its family's mid-tone field the unpacked tone 50 of the palette, in
dark and in light mode alike. -/
theorem family_setters_mid_tone (s : Scheme) (p : TonalPalette) :
    (∀ isDark, (s.WithPrimaryTonalPalette p isDark).PrimaryTone = nrgba (p.Tone 50)) ∧
    (∀ isDark, (s.WithSecondaryTonalPalette p isDark).SecondaryTone = nrgba (p.Tone 50)) ∧
    (∀ isDark, (s.WithTertiaryTonalPalette p isDark).TertiaryTone = nrgba (p.Tone 50)) ∧
    (∀ isDark, (s.WithCustomTonalPalette (some p) isDark).CustomTone = nrgba (p.Tone 50)) ∧
    (∀ isDark, (s.WithNeutralTonalPalette p isDark).NeutralTone = nrgba (p.Tone 50)) ∧
    (∀ isDark, (s.WithNeutralVariantTonalPalette p isDark).NeutralVariantTone
      = nrgba (p.Tone 50)) ∧
    (∀ isDark, (s.WithErrorTonalPalette p isDark).ErrorTone = nrgba (p.Tone 50)) :=
  ⟨fun _ => rfl, fun _ => rfl, fun _ => rfl, fun _ => rfl, fun _ => rfl, fun _ => rfl,
    fun _ => rfl⟩

/-- C9: in either mode the primary setter assigns ShadowTint the unpacked key
colour of the palette, and the schemes returned by `Light` and by `Dark` for
the same primary seed (whatever the other seeds and the heaps) have equal
ShadowTint. -/
theorem shadowTint_is_key_colour (lib : Lib) (s : Scheme) (p : TonalPalette)
    (h₁ h₂ : Heap) (primary s₁ t₁ n₁ v₁ s₂ t₂ n₂ v₂ : Int) :
    (∀ isDark, (s.WithPrimaryTonalPalette p isDark).ShadowTint
      = nrgba p.GetKeyColor.ToInt) ∧
    ∃ h₁' l h₂' d, Light lib h₁ primary s₁ t₁ n₁ v₁ = some (h₁', l) ∧
      Dark lib h₂ primary s₂ t₂ n₂ v₂ = some (h₂', d) ∧
      (h₁'.obj l).ShadowTint = nrgba (lib.NewTonalPaletteFromInt primary).GetKeyColor.ToInt ∧
      (h₂'.obj d).ShadowTint = nrgba (lib.NewTonalPaletteFromInt primary).GetKeyColor.ToInt ∧
      (h₁'.obj l).ShadowTint = (h₂'.obj d).ShadowTint := by
  refine ⟨fun _ => rfl, _, _, _, _, Light_eq lib h₁ primary s₁ t₁ n₁ v₁,
    Dark_eq lib h₂ primary s₂ t₂ n₂ v₂, ?_⟩
  simp only [Heap.alloc, Function.update_same]
  exact ⟨rfl, rfl, rfl⟩

/-! ## Single-colour overrides -/

/-- Two schemes with equal colour fields and equal retained palettes are equal:
`Scheme.color` and `Scheme.palette` together read every field. -/
theorem Scheme.ext_fields (a b : Scheme) (hc : ∀ f, a.color f = b.color f)
    (hp : ∀ r, a.palette r = b.palette r) : a = b := by
  cases a
  cases b
  simp only [Scheme.mk.injEq]
  refine ⟨hc .Primary, hc .OnPrimary, hc .PrimaryContainer, hc .OnPrimaryContainer,
    hc .InversePrimary, hc .Secondary, hc .OnSecondary, hc .SecondaryContainer,
    hc .OnSecondaryContainer, hc .Tertiary, hc .OnTertiary, hc .TertiaryContainer,
    hc .OnTertiaryContainer, hc .Custom, hc .OnCustom, hc .CustomContainer,
    hc .OnCustomContainer, hc .Error, hc .OnError, hc .ErrorContainer, hc .OnErrorContainer,
    hc .Surface, hc .SurfaceDim, hc .SurfaceBright, hc .SurfaceContainerLowest,
    hc .SurfaceContainerLow, hc .SurfaceContainer, hc .SurfaceContainerHigh,
    hc .SurfaceContainerHighest, hc .SurfaceVariant, hc .OnSurface, hc .OnSurfaceVariant,
    hc .InverseSurface, hc .InverseOnSurface, hc .Background, hc .OnBackground, hc .Outline,
    hc .OutlineVariant, hc .Shadow, hc .ShadowTint, hc .Scrim, hc .PrimaryTone,
    hc .SecondaryTone, hc .TertiaryTone, hc .CustomTone, hc .NeutralTone,
    hc .NeutralVariantTone, hc .ErrorTone, hp .primaryTone, hp .secondaryTone,
    hp .tertiaryTone, hp .customTone, hp .neutralTone, hp .neutralVariantTone, hp .errorTone⟩

/-- C10: each of the 37 override operations, on any scheme and integer, sets
the field it is named after to the unpacked colour of the integer and leaves
every other colour field (mid-tones included) and every retained palette
pointer as before. -/
theorem override_sets_only_target (o : Override) (s : Scheme) (c : Int) :
    (∀ f, (o.apply s c).color f = if f = o.target then nrgba c else s.color f) ∧
    (∀ r, (o.apply s c).palette r = s.palette r) := by
  constructor
  · intro f
    cases o <;> cases f <;> rfl
  · intro r
    cases o <;> cases r <;> rfl

/-! ## Which fields have an override -/

/-- C11, as stated, fails: none of the 37 override operations assigns Custom,
and none assigns PrimaryTone. On the zero scheme and the colour `0xFFFFFFFF`
every override leaves both fields at the zero value. -/
theorem no_override_for_custom_or_mid_tone :
    (¬ ∃ o : Override, ∀ (s : Scheme) (c : Int), (o.apply s c).color .Custom = nrgba c) ∧
    (¬ ∃ o : Override, ∀ (s : Scheme) (c : Int), (o.apply s c).color .PrimaryTone = nrgba c) := by
  constructor
  · rintro ⟨o, ho⟩
    have h := ho {} 0xFFFFFFFF
    revert h
    cases o <;> decide
  · rintro ⟨o, ho⟩
    have h := ho {} 0xFFFFFFFF
    revert h
    cases o <;> decide

/-- C11, amended: every colour field other than Custom, OnCustom, CustomContainer,
OnCustomContainer and the seven mid-tone fields has an override operation named
after it that, for every scheme and colour, sets the field to the unpacked
colour. -/
theorem override_exists_for_field (f : ColorField)
    (hf : f ∉ [ColorField.Custom, .OnCustom, .CustomContainer, .OnCustomContainer,
      .PrimaryTone, .SecondaryTone, .TertiaryTone, .CustomTone, .NeutralTone,
      .NeutralVariantTone, .ErrorTone]) :
    ∃ o : Override, o.target = f ∧
      ∀ (s : Scheme) (c : Int), (o.apply s c).color f = nrgba c := by
  cases f
  case Custom | OnCustom | CustomContainer | OnCustomContainer | PrimaryTone | SecondaryTone |
      TertiaryTone | CustomTone | NeutralTone | NeutralVariantTone | ErrorTone =>
    exact absurd (by decide) hf
  case Primary => exact ⟨.WithPrimary, rfl, fun _ _ => rfl⟩
  case OnPrimary => exact ⟨.WithOnPrimary, rfl, fun _ _ => rfl⟩
  case PrimaryContainer => exact ⟨.WithPrimaryContainer, rfl, fun _ _ => rfl⟩
  case OnPrimaryContainer => exact ⟨.WithOnPrimaryContainer, rfl, fun _ _ => rfl⟩
  case InversePrimary => exact ⟨.WithInversePrimary, rfl, fun _ _ => rfl⟩
  case Secondary => exact ⟨.WithSecondary, rfl, fun _ _ => rfl⟩
  case OnSecondary => exact ⟨.WithOnSecondary, rfl, fun _ _ => rfl⟩
  case SecondaryContainer => exact ⟨.WithSecondaryContainer, rfl, fun _ _ => rfl⟩
  case OnSecondaryContainer => exact ⟨.WithOnSecondaryContainer, rfl, fun _ _ => rfl⟩
  case Tertiary => exact ⟨.WithTertiary, rfl, fun _ _ => rfl⟩
  case OnTertiary => exact ⟨.WithOnTertiary, rfl, fun _ _ => rfl⟩
  case TertiaryContainer => exact ⟨.WithTertiaryContainer, rfl, fun _ _ => rfl⟩
  case OnTertiaryContainer => exact ⟨.WithOnTertiaryContainer, rfl, fun _ _ => rfl⟩
  case Error => exact ⟨.WithError, rfl, fun _ _ => rfl⟩
  case OnError => exact ⟨.WithOnError, rfl, fun _ _ => rfl⟩
  case ErrorContainer => exact ⟨.WithErrorContainer, rfl, fun _ _ => rfl⟩
  case OnErrorContainer => exact ⟨.WithOnErrorContainer, rfl, fun _ _ => rfl⟩
  case Surface => exact ⟨.WithSurface, rfl, fun _ _ => rfl⟩
  case SurfaceDim => exact ⟨.WithSurfaceDim, rfl, fun _ _ => rfl⟩
  case SurfaceBright => exact ⟨.WithSurfaceBright, rfl, fun _ _ => rfl⟩
  case SurfaceContainerLowest => exact ⟨.WithSurfaceContainerLowest, rfl, fun _ _ => rfl⟩
  case SurfaceContainerLow => exact ⟨.WithSurfaceContainerLow, rfl, fun _ _ => rfl⟩
  case SurfaceContainer => exact ⟨.WithSurfaceContainer, rfl, fun _ _ => rfl⟩
  case SurfaceContainerHigh => exact ⟨.WithSurfaceContainerHigh, rfl, fun _ _ => rfl⟩
  case SurfaceContainerHighest => exact ⟨.WithSurfaceContainerHighest, rfl, fun _ _ => rfl⟩
  case SurfaceVariant => exact ⟨.WithSurfaceVariant, rfl, fun _ _ => rfl⟩
  case OnSurface => exact ⟨.WithOnSurface, rfl, fun _ _ => rfl⟩
  case OnSurfaceVariant => exact ⟨.WithOnSurfaceVariant, rfl, fun _ _ => rfl⟩
  case InverseSurface => exact ⟨.WithInverseSurface, rfl, fun _ _ => rfl⟩
  case InverseOnSurface => exact ⟨.WithInverseOnSurface, rfl, fun _ _ => rfl⟩
  case Background => exact ⟨.WithBackground, rfl, fun _ _ => rfl⟩
  case OnBackground => exact ⟨.WithOnBackground, rfl, fun _ _ => rfl⟩
  case Outline => exact ⟨.WithOutline, rfl, fun _ _ => rfl⟩
  case OutlineVariant => exact ⟨.WithOutlineVariant, rfl, fun _ _ => rfl⟩
  case Shadow => exact ⟨.WithShadow, rfl, fun _ _ => rfl⟩
  case ShadowTint => exact ⟨.WithShadowTint, rfl, fun _ _ => rfl⟩
  case Scrim => exact ⟨.WithScrim, rfl, fun _ _ => rfl⟩

theorem override_exists_for_field_witness :
    ColorField.Outline ∉ [ColorField.Custom, .OnCustom, .CustomContainer, .OnCustomContainer,
        .PrimaryTone, .SecondaryTone, .TertiaryTone, .CustomTone, .NeutralTone,
        .NeutralVariantTone, .ErrorTone] ∧
      ∃ o : Override, o.target = .Outline ∧
        ∀ (s : Scheme) (c : Int), (o.apply s c).color .Outline = nrgba c :=
  ⟨by decide, override_exists_for_field .Outline (by decide)⟩

/-! ## Frame and idempotence of the family setters -/

/-- C12: a family setter changes only its own family. For every family, scheme,
palette and mode, a colour field outside the family's row, mid-tone (and, for
primary, ShadowTint) keeps its value, and so does every retained palette
pointer other than the family's own. -/
theorem family_setter_frame (fam : Family) (s : Scheme) (p : TonalPalette) (isDark : Bool)
    (f : ColorField) (r : PaletteField) (hf : f ∉ fam.fields) (hr : r ≠ fam.ref) :
    (fam.apply s p isDark).color f = s.color f ∧
      (fam.apply s p isDark).palette r = s.palette r := by
  constructor
  · cases fam <;> cases isDark <;> cases f <;>
      first
      | rfl
      | exact absurd (by decide) hf
  · cases fam <;> cases isDark <;> cases r <;>
      first
      | rfl
      | exact absurd rfl hr

theorem family_setter_frame_witness :
    ColorField.Primary ∉ Family.error.fields ∧ PaletteField.primaryTone ≠ Family.error.ref ∧
      ((Family.error.apply {} (opaqueStub.NewTonalPaletteFromInt 0xFFB3261E) true).color .Primary
          = ({} : Scheme).color .Primary ∧
        (Family.error.apply {} (opaqueStub.NewTonalPaletteFromInt 0xFFB3261E) true).palette
            .primaryTone
          = ({} : Scheme).palette .primaryTone) :=
  ⟨by decide, by decide,
    family_setter_frame .error {} (opaqueStub.NewTonalPaletteFromInt 0xFFB3261E) true .Primary
      .primaryTone (by decide) (by decide)⟩

/-- C13: every family setter is idempotent. Applying it twice with the same
palette and mode gives the same scheme, field for field, as applying it once;
this holds for the custom setter with a nil palette too, and the second error
call of `NewPaletteFromInt` leaves the light scheme as `Light` built it. -/
theorem family_setter_idempotent (lib : Lib) (h : Heap) (fam : Family) (s : Scheme)
    (p : TonalPalette) (isDark : Bool)
    (primary secondary tertiary neutral neutralVariant : Int) :
    fam.apply (fam.apply s p isDark) p isDark = fam.apply s p isDark ∧
    (s.WithCustomTonalPalette none isDark).WithCustomTonalPalette none isDark
      = s.WithCustomTonalPalette none isDark ∧
    ∃ h₁ l h₂ pal, Light lib h primary secondary tertiary neutral neutralVariant = some (h₁, l) ∧
      NewPaletteFromInt lib h primary secondary tertiary neutral neutralVariant
        = some (h₂, pal) ∧
      pal.Light = l ∧ h₂.obj pal.Light = h₁.obj l := by
  refine ⟨?_, rfl, _, _, _, _, Light_eq lib h primary secondary tertiary neutral neutralVariant,
    NewPaletteFromInt_eq lib h primary secondary tertiary neutral neutralVariant, rfl, ?_⟩
  · cases fam <;> cases isDark <;> rfl
  · have hne : h.size + 1 ≠ h.size + 2 := by omega
    simp only [Heap.alloc, Function.update_noteq hne, Function.update_same]
    rfl

/-! ## The palette container -/

theorem NewDefaultPalette_eq_NewPaletteFromInt (lib : Lib) (h : Heap) :
    NewDefaultPalette lib h =
      NewPaletteFromInt lib h ((PrimaryTonalPalette lib).Tone 50)
        ((SecondaryTonalPalette lib).Tone 50) ((TertiaryTonalPalette lib).Tone 50)
        ((NeutralTonalPalette lib).Tone 50) ((NeutralVariantTonalPalette lib).Tone 50) :=
  rfl

/-- One `SwitchMode` call keeps the two scheme pointers and makes `Active` and
`IsDark` agree with its argument. -/
theorem switchMode_step (p : Palette) (b : Bool) :
    (p.SwitchMode b).Light = p.Light ∧ (p.SwitchMode b).Dark = p.Dark ∧
      (p.SwitchMode b).Active = (if b then p.Dark else p.Light) ∧
      (p.SwitchMode b).IsDark = b := by
  cases b <;> exact ⟨rfl, rfl, rfl, rfl⟩

/-- The mode invariant is kept by every sequence of `SwitchMode` calls: the
scheme pointers stay, and `Active` is `Light` with `IsDark = false` or `Dark`
with `IsDark = true`. -/
theorem switchMode_foldl_inv (bs : List Bool) (p : Palette)
    (hp : (p.Active = p.Light ∧ p.IsDark = false) ∨ (p.Active = p.Dark ∧ p.IsDark = true)) :
    (bs.foldl Palette.SwitchMode p).Light = p.Light ∧
      (bs.foldl Palette.SwitchMode p).Dark = p.Dark ∧
      (((bs.foldl Palette.SwitchMode p).Active = p.Light ∧
          (bs.foldl Palette.SwitchMode p).IsDark = false) ∨
        ((bs.foldl Palette.SwitchMode p).Active = p.Dark ∧
          (bs.foldl Palette.SwitchMode p).IsDark = true)) := by
  induction bs generalizing p with
  | nil => exact ⟨rfl, rfl, hp⟩
  | cons b bs ih =>
    obtain ⟨hl, hd, ha, hi⟩ := switchMode_step p b
    have hstep : ((p.SwitchMode b).Active = (p.SwitchMode b).Light ∧
          (p.SwitchMode b).IsDark = false) ∨
        ((p.SwitchMode b).Active = (p.SwitchMode b).Dark ∧
          (p.SwitchMode b).IsDark = true) := by
      cases b
      · exact Or.inl ⟨by rw [ha, hl]; rfl, hi⟩
      · exact Or.inr ⟨by rw [ha, hd]; rfl, hi⟩
    have h := ih (p.SwitchMode b) hstep
    rw [hl, hd] at h
    exact h

/-- The palette returned by `NewPaletteFromInt`: two distinct live scheme
objects, the light one active. -/
theorem NewPaletteFromInt_shape (lib : Lib) (h : Heap)
    (primary secondary tertiary neutral neutralVariant : Int) :
    ∃ h' pal, NewPaletteFromInt lib h primary secondary tertiary neutral neutralVariant
        = some (h', pal) ∧
      pal.Active = pal.Light ∧ pal.IsDark = false ∧ pal.Light ≠ pal.Dark ∧
      h'.live pal.Light = true ∧ h'.live pal.Dark = true := by
  refine ⟨_, _, NewPaletteFromInt_eq lib h primary secondary tertiary neutral neutralVariant,
    rfl, rfl, ?_, ?_, ?_⟩
  · show h.size + 1 ≠ h.size + 2
    omega
  · simp [Heap.live]
  · simp [Heap.live]

/-- From a palette whose active scheme is the light one, every sequence of
`SwitchMode` calls leads to a palette whose `Active` is its `Light` or its
`Dark`, is live (so not nil), and is `Dark` exactly when `IsDark` holds. -/
theorem reachable_inv_of_start (h' : Heap) (pal : Palette) (bs : List Bool)
    (ha : pal.Active = pal.Light) (hi : pal.IsDark = false) (hne : pal.Light ≠ pal.Dark)
    (hl : h'.live pal.Light = true) (hd : h'.live pal.Dark = true) :
    ((bs.foldl Palette.SwitchMode pal).Active = (bs.foldl Palette.SwitchMode pal).Light ∨
        (bs.foldl Palette.SwitchMode pal).Active = (bs.foldl Palette.SwitchMode pal).Dark) ∧
      (bs.foldl Palette.SwitchMode pal).Active ≠ 0 ∧
      h'.live (bs.foldl Palette.SwitchMode pal).Active = true ∧
      ((bs.foldl Palette.SwitchMode pal).IsDark = true ↔
        (bs.foldl Palette.SwitchMode pal).Active = (bs.foldl Palette.SwitchMode pal).Dark) := by
  obtain ⟨hL, hD, hA⟩ := switchMode_foldl_inv bs pal (Or.inl ⟨ha, hi⟩)
  have hlive : ∀ q : Ptr, h'.live q = true → q ≠ 0 := by
    intro q hq h0
    subst h0
    simp [Heap.live] at hq
  rw [hL, hD]
  rcases hA with ⟨hA, hI⟩ | ⟨hA, hI⟩
  · rw [hA, hI]
    exact ⟨Or.inl rfl, hlive _ hl, hl, by simp [hne]⟩
  · rw [hA, hI]
    exact ⟨Or.inr rfl, hlive _ hd, hd, by simp⟩

/-- C14: for all five seeds `NewPaletteFromInt` returns a palette whose light
scheme holds the scheme built by the six family setters with isDark = false and
whose dark scheme holds the one built with isDark = true, from the palettes of
the same seeds; Active is the same pointer as Light and IsDark is false. -/
theorem newPaletteFromInt_light_dark_active (lib : Lib) (h : Heap)
    (primary secondary tertiary neutral neutralVariant : Int) :
    ∃ h' pal, NewPaletteFromInt lib h primary secondary tertiary neutral neutralVariant
        = some (h', pal) ∧
      h'.obj pal.Light = (({} : Scheme)
          |>.WithPrimaryTonalPalette (lib.NewTonalPaletteFromInt primary) false
          |>.WithSecondaryTonalPalette (lib.NewTonalPaletteFromInt secondary) false
          |>.WithTertiaryTonalPalette (lib.NewTonalPaletteFromInt tertiary) false
          |>.WithNeutralTonalPalette (lib.NewTonalPaletteFromInt neutral) false
          |>.WithNeutralVariantTonalPalette (lib.NewTonalPaletteFromInt neutralVariant) false
          |>.WithErrorTonalPalette (ErrorTonalPalette lib) false) ∧
      h'.obj pal.Dark = (({} : Scheme)
          |>.WithPrimaryTonalPalette (lib.NewTonalPaletteFromInt primary) true
          |>.WithSecondaryTonalPalette (lib.NewTonalPaletteFromInt secondary) true
          |>.WithTertiaryTonalPalette (lib.NewTonalPaletteFromInt tertiary) true
          |>.WithNeutralTonalPalette (lib.NewTonalPaletteFromInt neutral) true
          |>.WithNeutralVariantTonalPalette (lib.NewTonalPaletteFromInt neutralVariant) true
          |>.WithErrorTonalPalette (ErrorTonalPalette lib) true) ∧
      pal.Active = pal.Light ∧ pal.IsDark = false := by
  refine ⟨_, _, NewPaletteFromInt_eq lib h primary secondary tertiary neutral neutralVariant,
    ?_, ?_, rfl, rfl⟩
  · have hne : h.size + 1 ≠ h.size + 2 := by omega
    simp only [Function.update_noteq hne, Function.update_same]
    rfl
  · simp only [Function.update_same]
    rfl

/-- C15: `SwitchMode(b)` makes Active the Dark pointer if `b` and the Light
pointer otherwise, sets IsDark to `b`, and keeps the Light and Dark pointers;
it touches no scheme object, so in any heap both point to the contents they
pointed to before. -/
theorem switchMode_effect (p : Palette) (b : Bool) (h : Heap) :
    (p.SwitchMode b).Active = (if b then p.Dark else p.Light) ∧
      (p.SwitchMode b).IsDark = b ∧
      (p.SwitchMode b).Light = p.Light ∧ (p.SwitchMode b).Dark = p.Dark ∧
      h.obj (p.SwitchMode b).Light = h.obj p.Light ∧
      h.obj (p.SwitchMode b).Dark = h.obj p.Dark := by
  cases b <;> exact ⟨rfl, rfl, rfl, rfl, rfl, rfl⟩

/-- C16: `SwitchMode(true)` followed by `SwitchMode(false)` leaves Active equal
to the Light pointer held before the two calls, IsDark false, and the Light
and Dark pointers as they were. -/
theorem switchMode_true_false (p : Palette) :
    ((p.SwitchMode true).SwitchMode false).Active = p.Light ∧
      ((p.SwitchMode true).SwitchMode false).IsDark = false ∧
      ((p.SwitchMode true).SwitchMode false).Light = p.Light ∧
      ((p.SwitchMode true).SwitchMode false).Dark = p.Dark :=
  ⟨rfl, rfl, rfl, rfl⟩

/-- C17: in every state reached from `NewPaletteFromInt` or `NewDefaultPalette`
by a finite sequence of `SwitchMode` calls, Active is the Light or the Dark
pointer, it is live in the heap (not nil), and IsDark holds exactly when Active
is the Dark pointer. -/
theorem palette_reachable_invariant (lib : Lib) (h : Heap)
    (primary secondary tertiary neutral neutralVariant : Int) (bs : List Bool) :
    (∃ h' pal, NewPaletteFromInt lib h primary secondary tertiary neutral neutralVariant
        = some (h', pal) ∧
      ((bs.foldl Palette.SwitchMode pal).Active = (bs.foldl Palette.SwitchMode pal).Light ∨
        (bs.foldl Palette.SwitchMode pal).Active = (bs.foldl Palette.SwitchMode pal).Dark) ∧
      (bs.foldl Palette.SwitchMode pal).Active ≠ 0 ∧
      h'.live (bs.foldl Palette.SwitchMode pal).Active = true ∧
      ((bs.foldl Palette.SwitchMode pal).IsDark = true ↔
        (bs.foldl Palette.SwitchMode pal).Active = (bs.foldl Palette.SwitchMode pal).Dark)) ∧
    (∃ h' pal, NewDefaultPalette lib h = some (h', pal) ∧
      ((bs.foldl Palette.SwitchMode pal).Active = (bs.foldl Palette.SwitchMode pal).Light ∨
        (bs.foldl Palette.SwitchMode pal).Active = (bs.foldl Palette.SwitchMode pal).Dark) ∧
      (bs.foldl Palette.SwitchMode pal).Active ≠ 0 ∧
      h'.live (bs.foldl Palette.SwitchMode pal).Active = true ∧
      ((bs.foldl Palette.SwitchMode pal).IsDark = true ↔
        (bs.foldl Palette.SwitchMode pal).Active = (bs.foldl Palette.SwitchMode pal).Dark)) := by
  constructor
  · obtain ⟨h', pal, he, ha, hi, hne, hl, hd⟩ :=
      NewPaletteFromInt_shape lib h primary secondary tertiary neutral neutralVariant
    exact ⟨h', pal, he, reachable_inv_of_start h' pal bs ha hi hne hl hd⟩
  · obtain ⟨h', pal, he, ha, hi, hne, hl, hd⟩ :=
      NewPaletteFromInt_shape lib h ((PrimaryTonalPalette lib).Tone 50)
        ((SecondaryTonalPalette lib).Tone 50) ((TertiaryTonalPalette lib).Tone 50)
        ((NeutralTonalPalette lib).Tone 50) ((NeutralVariantTonalPalette lib).Tone 50)
    rw [← NewDefaultPalette_eq_NewPaletteFromInt] at he
    exact ⟨h', pal, he, reachable_inv_of_start h' pal bs ha hi hne hl hd⟩

/-! ## Colour integers -/

/-- The shift used by `nrgba` is the arithmetic one: for a shift amount `k ≥ 0`
it is the floor division by `2 ^ k`, also on negative integers. -/
theorem shiftRight_eq_floor_div (x : Int) (k : Nat) : x >>> (k : Int) = x / 2 ^ k := by
  have hcore : x >>> (k : Int) = x >>> k := by
    cases x with
    | ofNat m => exact Int.shiftRight_coe_nat m k
    | negSucc m => exact Int.shiftRight_negSucc m k
  rw [hcore, Int.shiftRight_eq_div_pow]
  norm_cast

/-- On a non-negative integer the four channels are the four low bytes. -/
theorem nrgba_bits (argb : Int) (h0 : 0 ≤ argb) :
    nrgba argb = { R := argb.toNat / 2 ^ 16 % 256, G := argb.toNat / 2 ^ 8 % 256,
                   B := argb.toNat % 256, A := argb.toNat / 2 ^ 24 % 256 } := by
  have h16 : argb >>> (16 : Int) = argb / 2 ^ 16 := shiftRight_eq_floor_div argb 16
  have h8 : argb >>> (8 : Int) = argb / 2 ^ 8 := shiftRight_eq_floor_div argb 8
  have h24 : argb >>> (24 : Int) = argb / 2 ^ 24 := shiftRight_eq_floor_div argb 24
  simp only [nrgba, uint8, h16, h8, h24, NRGBA.mk.injEq]
  refine ⟨?_, ?_, ?_, ?_⟩ <;> omega

/-- Every colour of the provider stub is opaque. -/
theorem opaqueStub_alpha (seed : Int) : (nrgba (0xFF000000 + seed % 0x1000000)).A = 255 := by
  have h0 : (0 : Int) ≤ 0xFF000000 + seed % 0x1000000 := by omega
  rw [nrgba_bits _ h0]
  show (0xFF000000 + seed % 0x1000000).toNat / 2 ^ 24 % 256 = 255
  omega

/-- A colour with alpha 255 is not the zero value. -/
theorem alpha_ne_zero {c : NRGBA} (hc : c.A = 255) :
    c ≠ { R := 0, G := 0, B := 0, A := 0 } := by
  intro h
  rw [h] at hc
  exact absurd hc (by decide)

/-- C20: colour integers are read as 0xAARRGGBB. For an integer in [0, 2^32)
the unpacked colour has A = bits 24..31, R = bits 16..23, G = bits 8..15 and
B = bits 0..7, so the four channels pack back to the integer; this is the
colour every override assigns. 0xff000000 is opaque black, 0xffffffff opaque
white and 0xffff0000 opaque red. -/
theorem nrgba_reads_aarrggbb (argb : Int) (h0 : 0 ≤ argb) (h1 : argb < 2 ^ 32) :
    (nrgba argb).A = argb.toNat / 2 ^ 24 % 256 ∧
      (nrgba argb).R = argb.toNat / 2 ^ 16 % 256 ∧
      (nrgba argb).G = argb.toNat / 2 ^ 8 % 256 ∧
      (nrgba argb).B = argb.toNat % 256 ∧
      ((nrgba argb).A * 2 ^ 24 + (nrgba argb).R * 2 ^ 16 + (nrgba argb).G * 2 ^ 8
        + (nrgba argb).B : Int) = argb ∧
      (∀ (o : Override) (s : Scheme), (o.apply s argb).color o.target = nrgba argb) ∧
      nrgba 0xff000000 = { R := 0, G := 0, B := 0, A := 255 } ∧
      nrgba 0xffffffff = { R := 255, G := 255, B := 255, A := 255 } ∧
      nrgba 0xffff0000 = { R := 255, G := 0, B := 0, A := 255 } := by
  refine ⟨?_, ?_, ?_, ?_, ?_, ?_, by decide, by decide, by decide⟩
  · rw [nrgba_bits argb h0]
  · rw [nrgba_bits argb h0]
  · rw [nrgba_bits argb h0]
  · rw [nrgba_bits argb h0]
  · rw [nrgba_bits argb h0]
    simp only
    omega
  · intro o s
    cases o <;> rfl

theorem nrgba_reads_aarrggbb_witness :
    (0 : Int) ≤ 0xFF6750A4 ∧ (0xFF6750A4 : Int) < 2 ^ 32 ∧
      ((nrgba 0xFF6750A4).A = (0xFF6750A4 : Int).toNat / 2 ^ 24 % 256 ∧
      (nrgba 0xFF6750A4).R = (0xFF6750A4 : Int).toNat / 2 ^ 16 % 256 ∧
      (nrgba 0xFF6750A4).G = (0xFF6750A4 : Int).toNat / 2 ^ 8 % 256 ∧
      (nrgba 0xFF6750A4).B = (0xFF6750A4 : Int).toNat % 256 ∧
      ((nrgba 0xFF6750A4).A * 2 ^ 24 + (nrgba 0xFF6750A4).R * 2 ^ 16
        + (nrgba 0xFF6750A4).G * 2 ^ 8 + (nrgba 0xFF6750A4).B : Int) = 0xFF6750A4 ∧
      (∀ (o : Override) (s : Scheme), (o.apply s 0xFF6750A4).color o.target
        = nrgba 0xFF6750A4) ∧
      nrgba 0xff000000 = { R := 0, G := 0, B := 0, A := 255 } ∧
      nrgba 0xffffffff = { R := 255, G := 255, B := 255, A := 255 } ∧
      nrgba 0xffff0000 = { R := 255, G := 0, B := 0, A := 255 }) :=
  ⟨by decide, by decide, nrgba_reads_aarrggbb 0xFF6750A4 (by decide) (by decide)⟩

/-! ## Fields set by construction -/

/-- C18, as stated, fails: with a provider whose colours are all opaque, the
light and dark schemes of `NewPaletteFromInt` still hold the zero value in
Custom, OnCustom, CustomContainer, OnCustomContainer and CustomTone, since
neither constructor calls the custom setter. -/
theorem custom_fields_left_unset :
    (∀ seed n : Int, (nrgba ((opaqueStub.NewTonalPaletteFromInt seed).Tone n)).A = 255) ∧
    (∀ seed : Int, (nrgba (opaqueStub.NewTonalPaletteFromInt seed).GetKeyColor.ToInt).A = 255) ∧
    ∃ h' pal, NewPaletteFromInt opaqueStub Heap.empty 0xFF6750A4 0xFF625B71 0xFF7D5260
        0xFF787579 0xFF79747E = some (h', pal) ∧
      (h'.obj pal.Light).Custom = { R := 0, G := 0, B := 0, A := 0 } ∧
      (h'.obj pal.Light).OnCustom = { R := 0, G := 0, B := 0, A := 0 } ∧
      (h'.obj pal.Light).CustomContainer = { R := 0, G := 0, B := 0, A := 0 } ∧
      (h'.obj pal.Light).OnCustomContainer = { R := 0, G := 0, B := 0, A := 0 } ∧
      (h'.obj pal.Light).CustomTone = { R := 0, G := 0, B := 0, A := 0 } ∧
      (h'.obj pal.Dark).Custom = { R := 0, G := 0, B := 0, A := 0 } ∧
      (h'.obj pal.Dark).OnCustom = { R := 0, G := 0, B := 0, A := 0 } ∧
      (h'.obj pal.Dark).CustomContainer = { R := 0, G := 0, B := 0, A := 0 } ∧
      (h'.obj pal.Dark).OnCustomContainer = { R := 0, G := 0, B := 0, A := 0 } ∧
      (h'.obj pal.Dark).CustomTone = { R := 0, G := 0, B := 0, A := 0 } := by
  refine ⟨fun seed _ => opaqueStub_alpha seed, fun seed => opaqueStub_alpha seed, _, _,
    NewPaletteFromInt_eq opaqueStub Heap.empty _ _ _ _ _, ?_⟩
  have hne : Heap.empty.size + 1 ≠ Heap.empty.size + 2 := by decide
  simp only [Function.update_noteq hne, Function.update_same]
  exact ⟨rfl, rfl, rfl, rfl, rfl, rfl, rfl, rfl, rfl, rfl⟩

/-- C18, amended: if the provider returns only opaque colours, for every tone
and as key colour, then in the light and dark schemes of `NewPaletteFromInt`
no colour field other than Custom, OnCustom, CustomContainer, OnCustomContainer
and CustomTone is left at the zero value. -/
theorem constructed_fields_set (lib : Lib) (h : Heap)
    (primary secondary tertiary neutral neutralVariant : Int) (f : ColorField)
    (htone : ∀ seed n : Int, (nrgba ((lib.NewTonalPaletteFromInt seed).Tone n)).A = 255)
    (hkey : ∀ seed : Int, (nrgba (lib.NewTonalPaletteFromInt seed).GetKeyColor.ToInt).A = 255)
    (hf : f ∉ [ColorField.Custom, .OnCustom, .CustomContainer, .OnCustomContainer,
      .CustomTone]) :
    ∃ h' pal, NewPaletteFromInt lib h primary secondary tertiary neutral neutralVariant
        = some (h', pal) ∧
      (h'.obj pal.Light).color f ≠ { R := 0, G := 0, B := 0, A := 0 } ∧
      (h'.obj pal.Dark).color f ≠ { R := 0, G := 0, B := 0, A := 0 } := by
  refine ⟨_, _, NewPaletteFromInt_eq lib h primary secondary tertiary neutral neutralVariant, ?_⟩
  have hne : h.size + 1 ≠ h.size + 2 := by omega
  simp only [Function.update_noteq hne, Function.update_same]
  cases f <;>
    first
    | exact absurd (by decide) hf
    | exact ⟨alpha_ne_zero (htone _ _), alpha_ne_zero (htone _ _)⟩
    | exact ⟨alpha_ne_zero (hkey _), alpha_ne_zero (hkey _)⟩

theorem constructed_fields_set_witness :
    (∀ seed n : Int, (nrgba ((opaqueStub.NewTonalPaletteFromInt seed).Tone n)).A = 255) ∧
    (∀ seed : Int, (nrgba (opaqueStub.NewTonalPaletteFromInt seed).GetKeyColor.ToInt).A = 255) ∧
    ColorField.ShadowTint ∉ [ColorField.Custom, .OnCustom, .CustomContainer,
      .OnCustomContainer, .CustomTone] ∧
    ∃ h' pal, NewPaletteFromInt opaqueStub Heap.empty 0xFF6750A4 0xFF625B71 0xFF7D5260
        0xFF787579 0xFF79747E = some (h', pal) ∧
      (h'.obj pal.Light).color .ShadowTint ≠ { R := 0, G := 0, B := 0, A := 0 } ∧
      (h'.obj pal.Dark).color .ShadowTint ≠ { R := 0, G := 0, B := 0, A := 0 } :=
  ⟨fun seed _ => opaqueStub_alpha seed, fun seed => opaqueStub_alpha seed, by decide,
    constructed_fields_set opaqueStub Heap.empty 0xFF6750A4 0xFF625B71 0xFF7D5260 0xFF787579
      0xFF79747E .ShadowTint (fun seed _ => opaqueStub_alpha seed)
      (fun seed => opaqueStub_alpha seed) (by decide)⟩

/-! ## The default palette -/

/-- C19: `NewDefaultPalette()` is `NewPaletteFromInt` applied to the tone-50
samples of the five preset palettes. Run from the same heap the two return the
same result; run from any two heaps they return palettes whose light schemes
are equal field for field, whose dark schemes are equal field for field, and
which both have Active = Light and IsDark = false. -/
theorem newDefaultPalette_is_newPaletteFromInt (lib : Lib) (h₁ h₂ : Heap) :
    NewDefaultPalette lib h₁ =
      NewPaletteFromInt lib h₁ ((PrimaryTonalPalette lib).Tone 50)
        ((SecondaryTonalPalette lib).Tone 50) ((TertiaryTonalPalette lib).Tone 50)
        ((NeutralTonalPalette lib).Tone 50) ((NeutralVariantTonalPalette lib).Tone 50) ∧
    ∃ h₁' p₁ h₂' p₂, NewDefaultPalette lib h₁ = some (h₁', p₁) ∧
      NewPaletteFromInt lib h₂ ((PrimaryTonalPalette lib).Tone 50)
        ((SecondaryTonalPalette lib).Tone 50) ((TertiaryTonalPalette lib).Tone 50)
        ((NeutralTonalPalette lib).Tone 50) ((NeutralVariantTonalPalette lib).Tone 50)
        = some (h₂', p₂) ∧
      h₁'.obj p₁.Light = h₂'.obj p₂.Light ∧ h₁'.obj p₁.Dark = h₂'.obj p₂.Dark ∧
      p₁.Active = p₁.Light ∧ p₂.Active = p₂.Light ∧ p₁.IsDark = false ∧ p₂.IsDark = false := by
  refine ⟨NewDefaultPalette_eq_NewPaletteFromInt lib h₁, _, _, _, _,
    (NewDefaultPalette_eq_NewPaletteFromInt lib h₁).trans (NewPaletteFromInt_eq lib h₁ _ _ _ _ _),
    NewPaletteFromInt_eq lib h₂ _ _ _ _ _, ?_, ?_, rfl, rfl, rfl, rfl⟩
  · have hne₁ : h₁.size + 1 ≠ h₁.size + 2 := by omega
    have hne₂ : h₂.size + 1 ≠ h₂.size + 2 := by omega
    simp only [Function.update_noteq hne₁, Function.update_noteq hne₂, Function.update_same]
  · simp only [Function.update_same]

/-! ## The field comments of the accent families -/

/-- C21: the field comments of `Scheme` document the on field of each accent
family as tone 90 (light) and 30 (dark) and the container field as tone 100 and
20. On the zero scheme with the marker palette each of the five setters assigns
the on field tone 100 (light) and 20 (dark) and the container field tone 90 and
30, which differ from the documented tones. -/
theorem on_container_tones_at_marker :
    (({} : Scheme).WithPrimaryTonalPalette markerPalette false).OnPrimary = nrgba (markerPalette.Tone 100) ∧
    (({} : Scheme).WithPrimaryTonalPalette markerPalette false).OnPrimary ≠ nrgba (markerPalette.Tone 90) ∧
    (({} : Scheme).WithPrimaryTonalPalette markerPalette false).PrimaryContainer = nrgba (markerPalette.Tone 90) ∧
    (({} : Scheme).WithPrimaryTonalPalette markerPalette false).PrimaryContainer ≠ nrgba (markerPalette.Tone 100) ∧
    (({} : Scheme).WithPrimaryTonalPalette markerPalette true).OnPrimary = nrgba (markerPalette.Tone 20) ∧
    (({} : Scheme).WithPrimaryTonalPalette markerPalette true).OnPrimary ≠ nrgba (markerPalette.Tone 30) ∧
    (({} : Scheme).WithPrimaryTonalPalette markerPalette true).PrimaryContainer = nrgba (markerPalette.Tone 30) ∧
    (({} : Scheme).WithPrimaryTonalPalette markerPalette true).PrimaryContainer ≠ nrgba (markerPalette.Tone 20) ∧
    (({} : Scheme).WithSecondaryTonalPalette markerPalette false).OnSecondary = nrgba (markerPalette.Tone 100) ∧
    (({} : Scheme).WithSecondaryTonalPalette markerPalette false).OnSecondary ≠ nrgba (markerPalette.Tone 90) ∧
    (({} : Scheme).WithSecondaryTonalPalette markerPalette false).SecondaryContainer = nrgba (markerPalette.Tone 90) ∧
    (({} : Scheme).WithSecondaryTonalPalette markerPalette false).SecondaryContainer ≠ nrgba (markerPalette.Tone 100) ∧
    (({} : Scheme).WithSecondaryTonalPalette markerPalette true).OnSecondary = nrgba (markerPalette.Tone 20) ∧
    (({} : Scheme).WithSecondaryTonalPalette markerPalette true).OnSecondary ≠ nrgba (markerPalette.Tone 30) ∧
    (({} : Scheme).WithSecondaryTonalPalette markerPalette true).SecondaryContainer = nrgba (markerPalette.Tone 30) ∧
    (({} : Scheme).WithSecondaryTonalPalette markerPalette true).SecondaryContainer ≠ nrgba (markerPalette.Tone 20) ∧
    (({} : Scheme).WithTertiaryTonalPalette markerPalette false).OnTertiary = nrgba (markerPalette.Tone 100) ∧
    (({} : Scheme).WithTertiaryTonalPalette markerPalette false).OnTertiary ≠ nrgba (markerPalette.Tone 90) ∧
    (({} : Scheme).WithTertiaryTonalPalette markerPalette false).TertiaryContainer = nrgba (markerPalette.Tone 90) ∧
    (({} : Scheme).WithTertiaryTonalPalette markerPalette false).TertiaryContainer ≠ nrgba (markerPalette.Tone 100) ∧
    (({} : Scheme).WithTertiaryTonalPalette markerPalette true).OnTertiary = nrgba (markerPalette.Tone 20) ∧
    (({} : Scheme).WithTertiaryTonalPalette markerPalette true).OnTertiary ≠ nrgba (markerPalette.Tone 30) ∧
    (({} : Scheme).WithTertiaryTonalPalette markerPalette true).TertiaryContainer = nrgba (markerPalette.Tone 30) ∧
    (({} : Scheme).WithTertiaryTonalPalette markerPalette true).TertiaryContainer ≠ nrgba (markerPalette.Tone 20) ∧
    (({} : Scheme).WithCustomTonalPalette (some markerPalette) false).OnCustom = nrgba (markerPalette.Tone 100) ∧
    (({} : Scheme).WithCustomTonalPalette (some markerPalette) false).OnCustom ≠ nrgba (markerPalette.Tone 90) ∧
    (({} : Scheme).WithCustomTonalPalette (some markerPalette) false).CustomContainer = nrgba (markerPalette.Tone 90) ∧
    (({} : Scheme).WithCustomTonalPalette (some markerPalette) false).CustomContainer ≠ nrgba (markerPalette.Tone 100) ∧
    (({} : Scheme).WithCustomTonalPalette (some markerPalette) true).OnCustom = nrgba (markerPalette.Tone 20) ∧
    (({} : Scheme).WithCustomTonalPalette (some markerPalette) true).OnCustom ≠ nrgba (markerPalette.Tone 30) ∧
    (({} : Scheme).WithCustomTonalPalette (some markerPalette) true).CustomContainer = nrgba (markerPalette.Tone 30) ∧
    (({} : Scheme).WithCustomTonalPalette (some markerPalette) true).CustomContainer ≠ nrgba (markerPalette.Tone 20) ∧
    (({} : Scheme).WithErrorTonalPalette markerPalette false).OnError = nrgba (markerPalette.Tone 100) ∧
    (({} : Scheme).WithErrorTonalPalette markerPalette false).OnError ≠ nrgba (markerPalette.Tone 90) ∧
    (({} : Scheme).WithErrorTonalPalette markerPalette false).ErrorContainer = nrgba (markerPalette.Tone 90) ∧
    (({} : Scheme).WithErrorTonalPalette markerPalette false).ErrorContainer ≠ nrgba (markerPalette.Tone 100) ∧
    (({} : Scheme).WithErrorTonalPalette markerPalette true).OnError = nrgba (markerPalette.Tone 20) ∧
    (({} : Scheme).WithErrorTonalPalette markerPalette true).OnError ≠ nrgba (markerPalette.Tone 30) ∧
    (({} : Scheme).WithErrorTonalPalette markerPalette true).ErrorContainer = nrgba (markerPalette.Tone 30) ∧
    (({} : Scheme).WithErrorTonalPalette markerPalette true).ErrorContainer ≠ nrgba (markerPalette.Tone 20) := by
  refine ⟨?_, ?_, ?_, ?_, ?_, ?_, ?_, ?_, ?_, ?_, ?_, ?_, ?_, ?_, ?_, ?_, ?_, ?_, ?_, ?_, ?_, ?_, ?_, ?_, ?_, ?_, ?_, ?_, ?_, ?_, ?_, ?_, ?_, ?_, ?_, ?_, ?_, ?_, ?_, ?_⟩ <;> decide

/-! ## Relations between the constructed schemes -/

/-- C22: the error family of a constructed palette does not depend on the
seeds. For any two heaps and any two 5-tuples of seeds, Error, OnError,
ErrorContainer, OnErrorContainer, ErrorTone of the light scheme are the unpacked
tones 40, 100, 90, 10, 50 of `ErrorTonalPalette` (the palette of 0xFFB3261E),
those of the dark scheme the tones 80, 20, 30, 90, 50, and the two palettes
agree on all of them. -/
theorem error_family_independent_of_seeds (lib : Lib) (h₁ h₂ : Heap)
    (a₁ b₁ c₁ d₁ e₁ a₂ b₂ c₂ d₂ e₂ : Int) :
    ErrorTonalPalette lib = lib.NewTonalPaletteFromInt 0xFFB3261E ∧
    ∃ h₁' p₁ h₂' p₂, NewPaletteFromInt lib h₁ a₁ b₁ c₁ d₁ e₁ = some (h₁', p₁) ∧
      NewPaletteFromInt lib h₂ a₂ b₂ c₂ d₂ e₂ = some (h₂', p₂) ∧
      (h₁'.obj p₁.Light).Error = nrgba ((ErrorTonalPalette lib).Tone 40) ∧
      (h₁'.obj p₁.Light).OnError = nrgba ((ErrorTonalPalette lib).Tone 100) ∧
      (h₁'.obj p₁.Light).ErrorContainer = nrgba ((ErrorTonalPalette lib).Tone 90) ∧
      (h₁'.obj p₁.Light).OnErrorContainer = nrgba ((ErrorTonalPalette lib).Tone 10) ∧
      (h₁'.obj p₁.Light).ErrorTone = nrgba ((ErrorTonalPalette lib).Tone 50) ∧
      (h₁'.obj p₁.Dark).Error = nrgba ((ErrorTonalPalette lib).Tone 80) ∧
      (h₁'.obj p₁.Dark).OnError = nrgba ((ErrorTonalPalette lib).Tone 20) ∧
      (h₁'.obj p₁.Dark).ErrorContainer = nrgba ((ErrorTonalPalette lib).Tone 30) ∧
      (h₁'.obj p₁.Dark).OnErrorContainer = nrgba ((ErrorTonalPalette lib).Tone 90) ∧
      (h₁'.obj p₁.Dark).ErrorTone = nrgba ((ErrorTonalPalette lib).Tone 50) ∧
      (h₂'.obj p₂.Light).Error = (h₁'.obj p₁.Light).Error ∧
      (h₂'.obj p₂.Light).OnError = (h₁'.obj p₁.Light).OnError ∧
      (h₂'.obj p₂.Light).ErrorContainer = (h₁'.obj p₁.Light).ErrorContainer ∧
      (h₂'.obj p₂.Light).OnErrorContainer = (h₁'.obj p₁.Light).OnErrorContainer ∧
      (h₂'.obj p₂.Light).ErrorTone = (h₁'.obj p₁.Light).ErrorTone ∧
      (h₂'.obj p₂.Dark).Error = (h₁'.obj p₁.Dark).Error ∧
      (h₂'.obj p₂.Dark).OnError = (h₁'.obj p₁.Dark).OnError ∧
      (h₂'.obj p₂.Dark).ErrorContainer = (h₁'.obj p₁.Dark).ErrorContainer ∧
      (h₂'.obj p₂.Dark).OnErrorContainer = (h₁'.obj p₁.Dark).OnErrorContainer ∧
      (h₂'.obj p₂.Dark).ErrorTone = (h₁'.obj p₁.Dark).ErrorTone := by
  refine ⟨rfl, _, _, _, _, NewPaletteFromInt_eq lib h₁ a₁ b₁ c₁ d₁ e₁,
    NewPaletteFromInt_eq lib h₂ a₂ b₂ c₂ d₂ e₂, ?_⟩
  have hne₁ : h₁.size + 1 ≠ h₁.size + 2 := by omega
  have hne₂ : h₂.size + 1 ≠ h₂.size + 2 := by omega
  simp only [Function.update_noteq hne₁, Function.update_noteq hne₂, Function.update_same]
  exact ⟨rfl, rfl, rfl, rfl, rfl, rfl, rfl, rfl, rfl, rfl, rfl, rfl, rfl, rfl, rfl, rfl, rfl, rfl, rfl, rfl⟩

/-- C23: in the palette returned by `NewPaletteFromInt` the light scheme's
InversePrimary equals the dark scheme's Primary, both the unpacked tone 80 of
the primary seed's palette, and the dark scheme's InversePrimary equals the
light scheme's Primary, both the unpacked tone 40. -/
theorem inverse_primary_mirrors_modes (lib : Lib) (h : Heap)
    (primary secondary tertiary neutral neutralVariant : Int) :
    ∃ h' pal, NewPaletteFromInt lib h primary secondary tertiary neutral neutralVariant
        = some (h', pal) ∧
      (h'.obj pal.Light).InversePrimary = (h'.obj pal.Dark).Primary ∧
      (h'.obj pal.Dark).Primary = nrgba ((lib.NewTonalPaletteFromInt primary).Tone 80) ∧
      (h'.obj pal.Dark).InversePrimary = (h'.obj pal.Light).Primary ∧
      (h'.obj pal.Light).Primary = nrgba ((lib.NewTonalPaletteFromInt primary).Tone 40) := by
  refine ⟨_, _, NewPaletteFromInt_eq lib h primary secondary tertiary neutral neutralVariant, ?_⟩
  have hne : h.size + 1 ≠ h.size + 2 := by omega
  simp only [Function.update_noteq hne, Function.update_same]
  exact ⟨rfl, rfl, rfl, rfl⟩

/-- Commutation with the setters of the other families, one family at a time. -/
theorem commute_primary (g : Family) (s : Scheme) (p q : TonalPalette) (a b : Bool)
    (hfg : Family.primary ≠ g) :
    g.apply (Family.primary.apply s p a) q b = Family.primary.apply (g.apply s q b) p a := by
  cases g <;>
    first
    | exact absurd rfl hfg
    | (cases a <;> cases b <;> rfl)

theorem commute_secondary (g : Family) (s : Scheme) (p q : TonalPalette) (a b : Bool)
    (hfg : Family.secondary ≠ g) :
    g.apply (Family.secondary.apply s p a) q b = Family.secondary.apply (g.apply s q b) p a := by
  cases g <;>
    first
    | exact absurd rfl hfg
    | (cases a <;> cases b <;> rfl)

theorem commute_tertiary (g : Family) (s : Scheme) (p q : TonalPalette) (a b : Bool)
    (hfg : Family.tertiary ≠ g) :
    g.apply (Family.tertiary.apply s p a) q b = Family.tertiary.apply (g.apply s q b) p a := by
  cases g <;>
    first
    | exact absurd rfl hfg
    | (cases a <;> cases b <;> rfl)

theorem commute_custom (g : Family) (s : Scheme) (p q : TonalPalette) (a b : Bool)
    (hfg : Family.custom ≠ g) :
    g.apply (Family.custom.apply s p a) q b = Family.custom.apply (g.apply s q b) p a := by
  cases g <;>
    first
    | exact absurd rfl hfg
    | (cases a <;> cases b <;> rfl)

theorem commute_neutral (g : Family) (s : Scheme) (p q : TonalPalette) (a b : Bool)
    (hfg : Family.neutral ≠ g) :
    g.apply (Family.neutral.apply s p a) q b = Family.neutral.apply (g.apply s q b) p a := by
  cases g <;>
    first
    | exact absurd rfl hfg
    | (cases a <;> cases b <;> rfl)

theorem commute_neutralVariant (g : Family) (s : Scheme) (p q : TonalPalette) (a b : Bool)
    (hfg : Family.neutralVariant ≠ g) :
    g.apply (Family.neutralVariant.apply s p a) q b = Family.neutralVariant.apply (g.apply s q b) p a := by
  cases g <;>
    first
    | exact absurd rfl hfg
    | (cases a <;> cases b <;> rfl)

theorem commute_error (g : Family) (s : Scheme) (p q : TonalPalette) (a b : Bool)
    (hfg : Family.error ≠ g) :
    g.apply (Family.error.apply s p a) q b = Family.error.apply (g.apply s q b) p a := by
  cases g <;>
    first
    | exact absurd rfl hfg
    | (cases a <;> cases b <;> rfl)

/-- C24: the setters of two different families commute. For every scheme,
palettes `p` and `q` and modes `a` and `b`, applying the setter of family `f`
and then that of a different family `g` gives the same scheme, in every field,
as applying them in the opposite order. -/
theorem family_setters_commute (f g : Family) (s : Scheme) (p q : TonalPalette) (a b : Bool)
    (hfg : f ≠ g) :
    g.apply (f.apply s p a) q b = f.apply (g.apply s q b) p a := by
  cases f
  · exact commute_primary g s p q a b hfg
  · exact commute_secondary g s p q a b hfg
  · exact commute_tertiary g s p q a b hfg
  · exact commute_custom g s p q a b hfg
  · exact commute_neutral g s p q a b hfg
  · exact commute_neutralVariant g s p q a b hfg
  · exact commute_error g s p q a b hfg

theorem family_setters_commute_witness :
    Family.secondary ≠ Family.neutral ∧
      Family.neutral.apply (Family.secondary.apply {} markerPalette true)
          (opaqueStub.NewTonalPaletteFromInt 0xFF787579) false
        = Family.secondary.apply
          (Family.neutral.apply {} (opaqueStub.NewTonalPaletteFromInt 0xFF787579) false)
          markerPalette true :=
  ⟨by decide,
    family_setters_commute .secondary .neutral {} markerPalette
      (opaqueStub.NewTonalPaletteFromInt 0xFF787579) true false (by decide)⟩

/-! ## Integers outside 32 bits -/

/-- C25: `nrgba` depends only on the low 32 bits of its argument. For every
integer `x`, also a negative one, `nrgba x = nrgba (x mod 2^32)`, adding a
multiple of 2^32 changes nothing, and R, G, B, A are the arithmetic shifts of
`x` by 16, 8, 0, 24 (floor division by the power of two) reduced modulo 256. -/
theorem nrgba_low_32_bits (x k : Int) :
    nrgba x = nrgba (x % 2 ^ 32) ∧
      nrgba (x + k * 2 ^ 32) = nrgba x ∧
      (nrgba x).R = ((x / 2 ^ 16) % 256).toNat ∧
      (nrgba x).G = ((x / 2 ^ 8) % 256).toNat ∧
      (nrgba x).B = (x % 256).toNat ∧
      (nrgba x).A = ((x / 2 ^ 24) % 256).toNat ∧
      nrgba (-1) = { R := 255, G := 255, B := 255, A := 255 } := by
  have hform : ∀ y : Int, nrgba y =
      { R := ((y / 2 ^ 16) % 256).toNat, G := ((y / 2 ^ 8) % 256).toNat,
        B := (y % 256).toNat, A := ((y / 2 ^ 24) % 256).toNat } := by
    intro y
    have h16 : y >>> (16 : Int) = y / 2 ^ 16 := shiftRight_eq_floor_div y 16
    have h8 : y >>> (8 : Int) = y / 2 ^ 8 := shiftRight_eq_floor_div y 8
    have h24 : y >>> (24 : Int) = y / 2 ^ 24 := shiftRight_eq_floor_div y 24
    simp only [nrgba, uint8, h16, h8, h24]
  refine ⟨?_, ?_, ?_, ?_, ?_, ?_, by decide⟩
  · rw [hform x, hform (x % 2 ^ 32)]
    simp only [NRGBA.mk.injEq]
    refine ⟨?_, ?_, ?_, ?_⟩ <;> omega
  · rw [hform x, hform (x + k * 2 ^ 32)]
    simp only [NRGBA.mk.injEq]
    refine ⟨?_, ?_, ?_, ?_⟩ <;> omega
  · rw [hform x]
  · rw [hform x]
  · rw [hform x]
  · rw [hform x]

end MD3
